import Mathlib

/-!
# weather-api: coordinate validation, temperature classification and the
two-hop forecast lookup

A shallow embedding of `weather/weather.go` and `main.go`.

* Go's `float64` is the type `Float64` below: NaN, the two infinities, negative
  zero, and the finite values, each carried as its exact rational value.  The
  program only compares floats, and an IEEE-754 comparison of two finite values
  is the comparison of their exact values.
* A Go `error` is its message text (`err.Error()`), a `String`.
* Everything the program obtains from outside its own source (the standard
  library calls `strconv.ParseFloat`, `fmt.Sprintf("%.4f", _)`, `url.Parse`,
  `(*url.URL).String`, `json.Unmarshal`, and the HTTP transport behind
  `http.Client`) is a field of the record `Env`.  The program's functions take
  an `Env`, and what is proved about them without naming an `Env` holds for
  every `Env`.  Namespace `GoStd` holds reference instances of the library
  fields; they are used where a statement concerns the text that the library
  produces or the way it reads one particular string.
* Outbound HTTP calls are recorded: every function that can reach the network
  takes the list of calls issued so far and returns the extended list.
* A handler call ends by returning or by panicking (`Outcome`); `Periods[0]` on
  an empty slice and a failed type assertion are the two panics of the source.
-/

set_option autoImplicit false

deriving instance DecidableEq for Except

namespace Weather

/-! ## float64 -/

/-- Go `float64`: NaN, the two infinities, negative zero, or a finite value `fin q`
whose exact value is the rational `q` (`fin 0` is positive zero).  Every finite
binary64 value is a rational, so a statement proved for all `fin q` covers all
finite `float64` values. -/
inductive Float64 where
  | nan
  | posInf
  | negInf
  | negZero
  | fin (q : ℚ)
deriving DecidableEq, Repr

namespace Float64

/-- Go `x <= y` on float64 (IEEE-754): false when either side is NaN, the two
zeros are equal, otherwise the order of the extended reals. -/
def le : Float64 → Float64 → Bool
  | nan, _ => false
  | _, nan => false
  | negInf, _ => true
  | _, posInf => true
  | posInf, _ => false
  | _, negInf => false
  | negZero, negZero => true
  | negZero, fin y => decide (0 ≤ y)
  | fin x, negZero => decide (x ≤ 0)
  | fin x, fin y => decide (x ≤ y)

/-- Go `x >= y` on float64. -/
def ge (x y : Float64) : Bool := le y x

/-- Go `x < y` on float64 (IEEE-754): false when either side is NaN. -/
def lt : Float64 → Float64 → Bool
  | nan, _ => false
  | _, nan => false
  | _, negInf => false
  | posInf, _ => false
  | negInf, _ => true
  | _, posInf => true
  | negZero, negZero => false
  | negZero, fin y => decide (0 < y)
  | fin x, negZero => decide (x < 0)
  | fin x, fin y => decide (x < y)

/-- The value is neither NaN nor an infinity. -/
def isFinite : Float64 → Bool
  | nan => false
  | posInf => false
  | negInf => false
  | negZero => true
  | fin _ => true

/-- The exact value of a float64 as a rational, when it has one. -/
def value? : Float64 → Option ℚ
  | negZero => some 0
  | fin q => some q
  | _ => none

end Float64

/-! ## weather/weather.go: constants and types -/

def baseURL : String := "https://api.weather.gov"

def HotThreshold : Float64 := .fin 80
def ColdThreshold : Float64 := .fin 50
def ModerateThreshold : Float64 := .fin 51

/-- Go `type TemperatureCategory string`. -/
abbrev TemperatureCategory := String

def Hot : TemperatureCategory := "hot"
def Cold : TemperatureCategory := "cold"
def Moderate : TemperatureCategory := "moderate"

/-- IsValidCoordinates checks if the given coordinates are valid. -/
def IsValidCoordinates (lat lon : Float64) : Bool :=
  lat.ge (.fin (-90)) && lat.le (.fin 90) && lon.ge (.fin (-180)) && lon.le (.fin 180)

/-- categorizeTemperature determines the temperature category. -/
def categorizeTemperature (temp : Float64) : TemperatureCategory :=
  if temp.ge HotThreshold then Hot
  else if temp.le ColdThreshold then Cold
  else Moderate

/-- WeatherResponse represents the response from our API.  A field left out of
a composite literal has Go's zero value. -/
structure WeatherResponse where
  Forecast : String := ""
  Temperature : Float64 := .fin 0
  Category : TemperatureCategory := ""
  ErrorMessage : String := ""
deriving DecidableEq, Repr

/-- One element of `NWSResponse.Properties.Periods`. -/
structure Period where
  Temperature : Float64
  ShortForecast : String
deriving DecidableEq, Repr

structure NWSProperties where
  Periods : List Period
deriving DecidableEq, Repr

/-- NWSResponse represents the National Weather Service API response. -/
structure NWSResponse where
  Properties : NWSProperties
deriving DecidableEq, Repr

structure gridProperties where
  ForecastURL : String
deriving DecidableEq, Repr

/-- The type gridResponse represents the response from the grid endpoint. -/
structure gridResponse where
  Properties : gridProperties
deriving DecidableEq, Repr

/-! ## The outside world -/

/-- The fields of a parsed `url.URL` that the library fills for a URL without
user information and without percent-escapes. -/
structure URL where
  Scheme : String := ""
  Opaque : String := ""
  Host : String := ""
  Path : String := ""
  OmitHost : Bool := false
  ForceQuery : Bool := false
  RawQuery : String := ""
  Fragment : String := ""
deriving DecidableEq, Repr

/-- An outbound call handed to the HTTP client: method, URL string as given by
the caller, and the `User-Agent` header the caller set (`""` when it set none). -/
structure HttpRequest where
  Method : String
  URL : String
  UserAgent : String := ""
deriving DecidableEq, Repr

/-- What the client hands back for a call that did not fail: the status code
and the outcome of `io.ReadAll(resp.Body)`. -/
structure HttpResponse where
  StatusCode : Nat
  Body : Except String String
deriving DecidableEq, Repr

/-- Standard-library functions and the network, as the program sees them.
`roundTrip sent req` is the outcome of `client.Do(req)` / `client.Get(url)`
after the calls `sent` have been issued. -/
structure Env where
  ParseFloat : String → Except String Float64
  Sprintf4f : Float64 → String
  urlParse : String → Except String URL
  urlString : URL → String
  unmarshalGrid : String → Except String gridResponse
  unmarshalNWS : String → Except String NWSResponse
  roundTrip : List HttpRequest → HttpRequest → Except String HttpResponse

/-- Outcome of a Go function returning `(*T, error)` that may also panic. -/
inductive Result (α : Type) where
  | ok (a : α)
  | err (e : String)
  | panic (msg : String)
deriving DecidableEq, Repr

/-! ## weather/weather.go: functions -/

/-- buildGridURL constructs the grid endpoint URL safely. -/
def buildGridURL (env : Env) (lat lon : Float64) : Except String String :=
  match env.urlParse baseURL with
  | .error err => .error ("invalid base URL: " ++ err)
  | .ok base =>
    let latStr := env.Sprintf4f lat
    let lonStr := env.Sprintf4f lon
    let base := { base with Path := "/points/" ++ latStr ++ "," ++ lonStr }
    .ok (env.urlString base)

/-- Go `http.NewRequest("GET", url, nil)`: with a valid method and a nil body it
fails exactly when `url.Parse` fails, with that error. -/
def newGetRequest (env : Env) (url : String) : Except String HttpRequest :=
  match env.urlParse url with
  | .error err => .error err
  | .ok _ => .ok { Method := "GET", URL := url }

/-- fetchGridData gets the grid data for the given coordinates.  Returns the
outcome and the outbound calls issued so far. -/
def fetchGridData (env : Env) (sent : List HttpRequest) (lat lon : Float64) :
    Except String gridResponse × List HttpRequest :=
  match buildGridURL env lat lon with
  | .error err => (.error ("error building grid URL: " ++ err), sent)
  | .ok gridURL =>
    match newGetRequest env gridURL with
    | .error err => (.error ("error creating request: " ++ err), sent)
    | .ok req =>
      let req := { req with UserAgent := "WeatherService/1.0" }
      match env.roundTrip sent req with
      | .error err => (.error ("error making request: " ++ err), sent ++ [req])
      | .ok resp =>
        if resp.StatusCode ≠ 200 then
          (.error ("unexpected status code: " ++ toString resp.StatusCode), sent ++ [req])
        else
          match resp.Body with
          | .error err => (.error ("error reading response: " ++ err), sent ++ [req])
          | .ok body =>
            match env.unmarshalGrid body with
            | .error err => (.error ("error parsing grid response: " ++ err), sent ++ [req])
            | .ok gridResp => (.ok gridResp, sent ++ [req])

/-- fetchForecast gets the forecast data from the given URL. -/
def fetchForecast (env : Env) (sent : List HttpRequest) (forecastURL : String) :
    Except String NWSResponse × List HttpRequest :=
  match env.urlParse forecastURL with
  | .error err => (.error ("invalid forecast URL: " ++ err), sent)
  | .ok url =>
    if url.Host ≠ "api.weather.gov" then
      (.error "invalid forecast URL domain", sent)
    else
      let req : HttpRequest := { Method := "GET", URL := forecastURL }
      match env.roundTrip sent req with
      | .error err => (.error ("error fetching forecast: " ++ err), sent ++ [req])
      | .ok resp =>
        if resp.StatusCode ≠ 200 then
          (.error ("unexpected forecast status code: " ++ toString resp.StatusCode),
            sent ++ [req])
        else
          match resp.Body with
          | .error err => (.error ("error reading forecast response: " ++ err), sent ++ [req])
          | .ok body =>
            match env.unmarshalNWS body with
            | .error err =>
              (.error ("error parsing forecast response: " ++ err), sent ++ [req])
            | .ok nwsResp =>
              if nwsResp.Properties.Periods.length = 0 then
                (.error "no forecast periods available", sent ++ [req])
              else
                (.ok nwsResp, sent ++ [req])

/-- The error text of the range check at the start of `GetWeather`. -/
def invalidCoordinatesMsg : String :=
  "invalid coordinates: latitude must be between -90 and 90, longitude between -180 and 180"

/-- GetWeather fetches weather data for the given coordinates.  The index
expression `Periods[0]` panics on an empty slice. -/
def GetWeather (env : Env) (sent : List HttpRequest) (lat lon : Float64) :
    Result WeatherResponse × List HttpRequest :=
  if !IsValidCoordinates lat lon then
    (.err invalidCoordinatesMsg, sent)
  else
    match fetchGridData env sent lat lon with
    | (.error err, sent1) => (.err err, sent1)
    | (.ok gridResp, sent1) =>
      match fetchForecast env sent1 gridResp.Properties.ForecastURL with
      | (.error err, sent2) => (.err err, sent2)
      | (.ok forecastResp, sent2) =>
        match forecastResp.Properties.Periods with
        | [] => (.panic "runtime error: index out of range [0] with length 0", sent2)
        | today :: _ =>
          (.ok { Forecast := today.ShortForecast
                 Temperature := today.Temperature
                 Category := categorizeTemperature today.Temperature }, sent2)

/-! ## main.go -/

/-- A dynamically typed Go value (`any`), as far as the request context needs
it: a float64, a string, or a value of some other type. -/
inductive Any where
  | float64 (x : Float64)
  | string (s : String)
  | other (id : Nat)
deriving DecidableEq, Repr

/-- A `context.Context` as its chain of key/value pairs, innermost first. -/
abbrev Context := List (Any × Any)

/-- Go `context.WithValue(ctx, key, val)`. -/
def Context.WithValue (ctx : Context) (key val : Any) : Context := (key, val) :: ctx

/-- Go `ctx.Value(key)`: the innermost value stored under an equal key, or nil. -/
def Context.Value : Context → Any → Option Any
  | [], _ => none
  | (k, v) :: rest, key => if k = key then some v else Context.Value rest key

/-- Go `url.Values`: a map from a key to its values in order of appearance; a
key that is absent maps to no values. -/
abbrev Values := String → List String

/-- Go `Values.Get`: the first value of the key, `""` when there is none. -/
def Values.Get (v : Values) (key : String) : String :=
  match v key with
  | [] => ""
  | x :: _ => x

/-- The inbound request: `r.URL.Query()` and `r.Context()`. -/
structure Request where
  Query : Values
  Ctx : Context

/-- Go `r.WithContext(ctx)`. -/
def Request.WithContext (r : Request) (ctx : Context) : Request := { r with Ctx := ctx }

/-- State of an `http.ResponseWriter`: the header map, the status code once
the header has been written, and the values encoded to the body so far. -/
structure ResponseWriter where
  Header : List (String × String)
  Status : Option Nat
  Body : List WeatherResponse
deriving DecidableEq, Repr

namespace ResponseWriter

/-- Go `w.Header().Set(key, value)`. -/
def HeaderSet (w : ResponseWriter) (key value : String) : ResponseWriter :=
  { w with Header := (key, value) :: w.Header.filter (fun kv => kv.1 ≠ key) }

/-- Go `w.WriteHeader(code)`: only the first call takes effect. -/
def WriteHeader (w : ResponseWriter) (code : Nat) : ResponseWriter :=
  match w.Status with
  | some _ => w
  | none => { w with Status := some code }

/-- Go `json.NewEncoder(w).Encode(v)` with the error ignored: a NaN or infinite
number is unsupported and nothing is written; otherwise the value is written,
which sends status 200 if no header was written before. -/
def Encode (w : ResponseWriter) (v : WeatherResponse) : ResponseWriter :=
  if v.Temperature.isFinite then
    { w with Status := some (w.Status.getD 200), Body := w.Body ++ [v] }
  else w

/-- The status code the client receives: 200 when the handler never wrote one. -/
def Code (w : ResponseWriter) : Nat := w.Status.getD 200

end ResponseWriter

/-- How a handler call ends: it returns, leaving the response writer and the
list of outbound calls in some state, or it panics. -/
inductive Outcome where
  | returned (w : ResponseWriter) (sent : List HttpRequest)
  | panicked (msg : String)
deriving DecidableEq, Repr

/-- Go `http.Handler`: `ServeHTTP(w, r)`. -/
abbrev Handler := ResponseWriter → Request → List HttpRequest → Outcome

/-- coordinateValidator middleware validates coordinate parameters. -/
def coordinateValidator (env : Env) (next : Handler) : Handler :=
  fun w r sent =>
    let w := w.HeaderSet "Content-Type" "application/json"
    let latStr := r.Query.Get "lat"
    let lonStr := r.Query.Get "lon"
    if latStr = "" ∨ lonStr = "" then
      .returned ((w.WriteHeader 400).Encode
        { ErrorMessage := "latitude and longitude are required" }) sent
    else
      match env.ParseFloat latStr with
      | .error _ =>
        .returned ((w.WriteHeader 400).Encode
          { ErrorMessage := "invalid latitude format" }) sent
      | .ok lat =>
        match env.ParseFloat lonStr with
        | .error _ =>
          .returned ((w.WriteHeader 400).Encode
            { ErrorMessage := "invalid longitude format" }) sent
        | .ok lon =>
          if !IsValidCoordinates lat lon then
            .returned ((w.WriteHeader 400).Encode
              { ErrorMessage := "coordinates out of valid range" }) sent
          else
            let ctx := r.Ctx
            let ctx := ctx.WithValue (.string "lat") (.float64 lat)
            let ctx := ctx.WithValue (.string "lon") (.float64 lon)
            next w (r.WithContext ctx) sent

/-- The handler weatherHandler.  A type assertion `.(float64)` on a value that
is nil or of another type panics. -/
def weatherHandler (env : Env) : Handler :=
  fun w r sent =>
    match r.Ctx.Value (.string "lat") with
    | some (.float64 lat) =>
      match r.Ctx.Value (.string "lon") with
      | some (.float64 lon) =>
        match GetWeather env sent lat lon with
        | (.panic msg, _) => .panicked msg
        | (.err err, sent1) =>
          .returned ((w.WriteHeader 500).Encode { ErrorMessage := err }) sent1
        | (.ok weatherData, sent1) => .returned (w.Encode weatherData) sent1
      | _ => .panicked "interface conversion: interface {} is not float64"
    | _ => .panicked "interface conversion: interface {} is not float64"

/-- The handler that `main` registers for `/weather`. -/
def endpoint (env : Env) : Handler := coordinateValidator env (weatherHandler env)

/-! ## Reference instances of the library functions

Executable descriptions of the documented behaviour of the Go standard library
functions behind `Env`, each for a stated fragment of its input.  A result
`none` means "outside the fragment described here"; inside the fragment the
result is the library's.  The text of a library error is not reproduced
literally (the program never inspects it).  List-of-character functions do the
work; the `String` wrappers sit at the end. -/

namespace GoStd

/-- The decimal digit character of `k % 10`. -/
def digitChar (k : Nat) : Char :=
  match k % 10 with
  | 0 => '0' | 1 => '1' | 2 => '2' | 3 => '3' | 4 => '4'
  | 5 => '5' | 6 => '6' | 7 => '7' | 8 => '8' | _ => '9'

/-- Decimal digits of `n` in front of `acc`, most significant first; `fuel`
bounds the number of digits produced. -/
def digitsAux : Nat → Nat → List Char → List Char
  | 0, _, acc => acc
  | fuel + 1, n, acc =>
    if n / 10 = 0 then digitChar n :: acc
    else digitsAux fuel (n / 10) (digitChar n :: acc)

/-- Decimal representation of a natural number. -/
def digits (n : Nat) : List Char := digitsAux (n + 1) n []

/-- The integer nearest to `n / d`, a tie going to the even neighbour. -/
def roundHalfEven (n d : Nat) : Nat :=
  if 2 * (n % d) < d then n / d
  else if d < 2 * (n % d) then n / d + 1
  else if (n / d) % 2 = 0 then n / d
  else n / d + 1

/-- The four digits of `n % 10000`. -/
def pad4 (n : Nat) : List Char :=
  [digitChar (n / 1000), digitChar (n / 100), digitChar (n / 10), digitChar n]

/-- Go `fmt.Sprintf("%.4f", x)`: the exact value rounded to four decimals
(nearest, ties to even), a leading `-` for a negative value or negative zero,
and the words `NaN`, `+Inf`, `-Inf`. -/
def sprintf4fChars : Float64 → List Char
  | .nan => ['N', 'a', 'N']
  | .posInf => ['+', 'I', 'n', 'f']
  | .negInf => ['-', 'I', 'n', 'f']
  | .negZero => ['-', '0', '.', '0', '0', '0', '0']
  | .fin q =>
    let m := roundHalfEven (q.num.natAbs * 10000) q.den
    let body := digits (m / 10000) ++ '.' :: pad4 (m % 10000)
    if q < 0 then '-' :: body else body

def sprintf4f (x : Float64) : String := String.mk (sprintf4fChars x)

/-- A decimal numeral with exactly four decimal places: an optional `-`, one or
more digits, a point, and exactly four digits. -/
def isFixed4 (s : List Char) : Bool :=
  let body := match s with
    | '-' :: t => t
    | t => t
  match body.dropWhile Char.isDigit with
  | '.' :: fp =>
    !(body.takeWhile Char.isDigit).isEmpty && decide (fp.length = 4) && fp.all Char.isDigit
  | _ => false

/-! ### net/url -/

/-- Go `strings.Cut(s, sep)` for a one-character separator: the text before the
first separator and, when there is one, the text after it. -/
def cut (sep : Char) : List Char → List Char × Option (List Char)
  | [] => ([], none)
  | c :: cs => if c = sep then ([], some cs) else (c :: (cut sep cs).1, (cut sep cs).2)

/-- The suffix of `s` that starts at the last occurrence of `sep`, if any. -/
def lastFrom (sep : Char) : List Char → Option (List Char)
  | [] => none
  | c :: cs =>
    match lastFrom sep cs with
    | some t => some t
    | none => if c = sep then some (c :: cs) else none

/-- ASCII control character (`stringContainsCTLByte`). -/
def isCTL (c : Char) : Bool := decide (c.toNat < 32) || decide (c.toNat = 127)

/-- Characters that `shouldEscape(c, encodePath)` leaves unescaped. -/
def pathPlain (c : Char) : Bool :=
  c.isAlphanum || ['-', '_', '.', '~', '$', '&', '+', ',', '/', ':', ';', '=', '@'].contains c

/-- ASCII characters that `shouldEscape(c, encodeHost)` leaves unescaped. -/
def hostPlain (c : Char) : Bool :=
  c.isAlphanum || ['!', '$', '&', Char.ofNat 39, '(', ')', '*', '+', ',', ';', '=', ':',
    '[', ']', '<', '>', '"', '-', '_', '.', '~'].contains c

/-- Characters that `shouldEscape(c, encodeFragment)` leaves unescaped. -/
def fragmentPlain (c : Char) : Bool :=
  c.isAlphanum || ['-', '_', '.', '~', '$', '&', '+', ',', '/', ':', ';', '=', '?', '@',
    '!', '(', ')', '*'].contains c

/-- Characters outside the fragment of URLs described here: non-ASCII, the
percent sign, user information and bracketed IP literals. -/
def unsupported (c : Char) : Bool :=
  decide (128 ≤ c.toNat) || c = '%' || c = '@' || c = '[' || c = ']'

/-- Go `getScheme`: `seen` is the scheme read so far, in reverse. -/
def getSchemeAux (whole : List Char) : List Char → List Char →
    Except String (List Char × List Char)
  | _, [] => .ok ([], whole)
  | seen, c :: cs =>
    if c.isAlpha then getSchemeAux whole (c :: seen) cs
    else if c.isDigit || c = '+' || c = '-' || c = '.' then
      if seen = [] then .ok ([], whole) else getSchemeAux whole (c :: seen) cs
    else if c = ':' then
      if seen = [] then .error "missing protocol scheme" else .ok (seen.reverse, cs)
    else .ok ([], whole)

def getScheme (rawURL : List Char) : Except String (List Char × List Char) :=
  getSchemeAux rawURL [] rawURL

/-- Go `validOptionalPort`. -/
def validOptionalPort : List Char → Bool
  | [] => true
  | c :: cs => c = ':' && cs.all Char.isDigit

/-- Go `parseHost` for a host without brackets and percent signs. -/
def parseHost (host : List Char) : Except String (List Char) :=
  match lastFrom ':' host with
  | some colonPort =>
    if !validOptionalPort colonPort then .error "invalid port after host"
    else if host.all hostPlain then .ok host else .error "invalid character in host name"
  | none =>
    if host.all hostPlain then .ok host else .error "invalid character in host name"

/-- Go `url.Parse` after the fragment has been cut off (`parse(u, false)`).
`none` when the path holds a character that the library would record in
`RawPath`, a field left out of `URL`. -/
def parseNoFragment (u : List Char) : Option (Except String URL) :=
  if u.any isCTL then some (.error "net/url: invalid control character in URL")
  else if u = ['*'] then some (.ok { Path := "*" })
  else
    match getScheme u with
    | .error e => some (.error e)
    | .ok (scheme, rest0) =>
      let scheme := scheme.map Char.toLower
      -- a single trailing `?` sets ForceQuery; otherwise the query is what follows the first `?`
      let rest := (cut '?' rest0).1
      let forceQuery := decide ((cut '?' rest0).2 = some [])
      let rawQuery := ((cut '?' rest0).2).getD []
      if rest.head? ≠ some '/' ∧ scheme ≠ [] then
        some (.ok { Scheme := String.mk scheme, Opaque := String.mk rest,
                    ForceQuery := forceQuery, RawQuery := String.mk rawQuery })
      else if rest.head? ≠ some '/' ∧ (cut '/' rest).1.contains ':' then
        some (.error "first path segment in URL cannot contain colon")
      else if (scheme ≠ [] ∨ rest.take 3 ≠ ['/', '/', '/']) ∧ rest.take 2 = ['/', '/'] then
        let authority := (cut '/' (rest.drop 2)).1
        let path := match (cut '/' (rest.drop 2)).2 with
          | some p => '/' :: p
          | none => []
        match parseHost authority with
        | .error e => some (.error e)
        | .ok host =>
          if path.all pathPlain then
            some (.ok { Scheme := String.mk scheme, Host := String.mk host,
                        Path := String.mk path, ForceQuery := forceQuery,
                        RawQuery := String.mk rawQuery })
          else none
      else if rest.all pathPlain then
        some (.ok { Scheme := String.mk scheme, Path := String.mk rest,
                    OmitHost := decide (scheme ≠ [] ∧ rest.head? = some '/'),
                    ForceQuery := forceQuery, RawQuery := String.mk rawQuery })
      else none

/-- Go `url.Parse` on the characters of the URL: `none` for input with an
`unsupported` character or with a fragment that would need escaping. -/
def parseURLChars (rawURL : List Char) : Option (Except String URL) :=
  if rawURL.any unsupported then none
  else
    match parseNoFragment (cut '#' rawURL).1 with
    | none => none
    | some (.error e) => some (.error e)
    | some (.ok url) =>
      match (cut '#' rawURL).2 with
      | none => some (.ok url)
      | some frag =>
        if frag.all fragmentPlain then some (.ok { url with Fragment := String.mk frag })
        else none

/-- Go `url.Parse`. -/
def parseURL (rawURL : String) : Option (Except String URL) := parseURLChars rawURL.data

/-- Go `(*url.URL).String` for a URL none of whose parts needs escaping. -/
def urlStringChars (u : URL) : Option (List Char) :=
  if ¬ (u.Host.data.all hostPlain ∧ (u.Path = "*" ∨ u.Path.data.all pathPlain)
        ∧ u.Fragment.data.all fragmentPlain) then none
  else
    let s0 : List Char := if u.Scheme ≠ "" then u.Scheme.data ++ [':'] else []
    let s1 : List Char :=
      if u.Opaque ≠ "" then s0 ++ u.Opaque.data
      else
        let s := if (u.Scheme ≠ "" ∨ u.Host ≠ "") ∧ ¬ (u.OmitHost = true ∧ u.Host = "") then
            (if u.Host ≠ "" ∨ u.Path ≠ "" then s0 ++ ['/', '/'] else s0) ++ u.Host.data
          else s0
        let s := if u.Path ≠ "" ∧ u.Path.data.head? ≠ some '/' ∧ u.Host ≠ "" then s ++ ['/']
          else s
        let s := if s = [] ∧ (cut '/' u.Path.data).1.contains ':' then ['.', '/'] else s
        s ++ u.Path.data
    let s2 := if u.ForceQuery = true ∨ u.RawQuery ≠ "" then s1 ++ '?' :: u.RawQuery.data else s1
    some (if u.Fragment ≠ "" then s2 ++ '#' :: u.Fragment.data else s2)

def urlString (u : URL) : Option String := (urlStringChars u).map String.mk

/-! ### strconv -/

/-- The number written by a string of decimal digits. -/
def digitsValue (ds : List Char) : Nat :=
  ds.foldl (fun acc c => acc * 10 + (c.toNat - 48)) 0

/-- Number of binary digits of `n`. -/
def bitLenAux : Nat → Nat → Nat
  | 0, _ => 0
  | fuel + 1, n => if n = 0 then 0 else bitLenAux fuel (n / 2) + 1

def bitLen (n : Nat) : Nat := bitLenAux n n

/-- The binary64 value nearest to `n / d` for positive `n` and `d` (ties to
even, gradual underflow); `none` when the rounded value overflows. -/
def roundBinary64 (n d : Nat) : Option ℚ :=
  let e0 : Int := (bitLen n : Int) - (bitLen d : Int)
  -- the binary exponent of n / d is e0 or e0 - 1
  let e : Int :=
    if (if 0 ≤ e0 then d * 2 ^ e0.toNat ≤ n else d ≤ n * 2 ^ (-e0).toNat) then e0 else e0 - 1
  let p : Int := max e (-1022) - 52
  if 0 ≤ p then
    let m := roundHalfEven n (d * 2 ^ p.toNat)
    if 2 ^ 1024 ≤ m * 2 ^ p.toNat then none else some (mkRat (m * 2 ^ p.toNat) 1)
  else
    some (mkRat (roundHalfEven (n * 2 ^ (-p).toNat) d) (2 ^ (-p).toNat))

/-- The float64 for sign `neg` and magnitude `n / d`, or the range error. -/
def makeFloat (neg : Bool) (n d : Nat) : Except String Float64 :=
  if n = 0 then .ok (if neg then .negZero else .fin 0)
  else
    match roundBinary64 n d with
    | none => .error "value out of range"
    | some q =>
      if q = 0 then .ok (if neg then .negZero else .fin 0)
      else .ok (.fin (if neg then -q else q))

/-- An unsigned decimal without exponent: digits with at most one point and at
least one digit. -/
def parseUnsigned (neg : Bool) (body : List Char) : Except String Float64 :=
  let intPart := (cut '.' body).1
  let fracPart := ((cut '.' body).2).getD []
  if intPart.all Char.isDigit ∧ fracPart.all Char.isDigit ∧ (intPart ≠ [] ∨ fracPart ≠ []) then
    makeFloat neg (digitsValue (intPart ++ fracPart)) (10 ^ fracPart.length)
  else .error "invalid syntax"

/-- Go `strconv.ParseFloat(s, 64)` for input without exponent, hexadecimal
prefix and underscores: the words NaN, Inf and Infinity in any letter case
(the last two with an optional sign), or a decimal with an optional sign,
rounded to the nearest float64. -/
def parseFloatChars (s : List Char) : Option (Except String Float64) :=
  let low := s.map Char.toLower
  if low = ['n', 'a', 'n'] then some (.ok .nan)
  else if low = ['i', 'n', 'f'] ∨ low = ['+', 'i', 'n', 'f']
      ∨ low = ['i', 'n', 'f', 'i', 'n', 'i', 't', 'y']
      ∨ low = ['+', 'i', 'n', 'f', 'i', 'n', 'i', 't', 'y'] then some (.ok .posInf)
  else if low = ['-', 'i', 'n', 'f'] ∨ low = ['-', 'i', 'n', 'f', 'i', 'n', 'i', 't', 'y'] then
    some (.ok .negInf)
  else if low.any (fun c => c = 'e' || c = 'x' || c = 'p' || c = '_') then none
  else
    match s with
    | '+' :: body => some (parseUnsigned false body)
    | '-' :: body => some (parseUnsigned true body)
    | body => some (parseUnsigned false body)

def parseFloat (s : String) : Option (Except String Float64) := parseFloatChars s.data

/-- The environment whose library functions are the reference instances, over
a given transport and given JSON decoders.  Input outside the described
fragments is answered with an error. -/
def env (unmarshalGrid : String → Except String gridResponse)
    (unmarshalNWS : String → Except String NWSResponse)
    (roundTrip : List HttpRequest → HttpRequest → Except String HttpResponse) : Env where
  ParseFloat s := (parseFloat s).getD (.error "number syntax not described")
  Sprintf4f := sprintf4f
  urlParse s := (parseURL s).getD (.error "URL form not described")
  urlString u := (urlString u).getD ""
  unmarshalGrid := unmarshalGrid
  unmarshalNWS := unmarshalNWS
  roundTrip := roundTrip

end GoStd

/-! ## Vocabulary of the statements -/

/-- The writer `w` after status `code` and a body carrying only the error text
`msg` (forecast `""`, temperature `0`, category `""`) have been written to it. -/
def errorReply (w : ResponseWriter) (code : Nat) (msg : String) : ResponseWriter :=
  { Header := w.Header, Status := some code,
    Body := w.Body ++ [{ Forecast := "", Temperature := .fin 0, Category := "",
                         ErrorMessage := msg }] }

/-- A response writer to which nothing has been written. -/
def freshWriter : ResponseWriter := { Header := [], Status := none, Body := [] }

/-- The outbound call `client.Get(url)`. -/
def getCall (url : String) : HttpRequest := { Method := "GET", URL := url }

/-- The outbound call of `fetchGridData` for a grid URL. -/
def gridCall (url : String) : HttpRequest :=
  { Method := "GET", URL := url, UserAgent := "WeatherService/1.0" }

/-- A query with the given `lat` and `lon` values; `none` leaves the key out. -/
def queryOf (lat lon : Option String) : Values :=
  fun key =>
    if key = "lat" then lat.toList
    else if key = "lon" then lon.toList
    else []

/-- An inbound request with the given `lat` and `lon` and an empty context. -/
def requestOf (lat lon : Option String) : Request := { Query := queryOf lat lon, Ctx := [] }

/-- A canned upstream over the reference library: every call is answered with
status `status` and an empty body, every grid body decodes to a grid response
naming `forecastURL`, every forecast body decodes to the list `periods`. -/
def cannedEnv (status : Nat) (forecastURL : String) (periods : List Period) : Env :=
  GoStd.env (fun _ => .ok { Properties := { ForecastURL := forecastURL } })
    (fun _ => .ok { Properties := { Periods := periods } })
    (fun _ _ => .ok { StatusCode := status, Body := .ok "" })

/-- The float64 nearest to 40.7128. -/
def lat407128 : Float64 := .fin (mkRat 2864908607956399 70368744177664)

/-- The float64 nearest to -74.006. -/
def lonNeg74006 : Float64 := .fin (mkRat (-2603854640806101) 35184372088832)

/-- Grid decoder of the sample upstream: the body named `grid` decodes to a grid
response naming a forecast URL on the upstream host; any other body is not JSON. -/
def sampleUnmarshalGrid (body : String) : Except String gridResponse :=
  if body = "grid" then
    .ok { Properties :=
            { ForecastURL := "https://api.weather.gov/gridpoints/OKX/33,37/forecast" } }
  else .error "unexpected end of JSON input"

/-- Forecast decoder of the sample upstream: the body named `forecast` decodes to
the one period (85, "Sunny"); any other body is not JSON. -/
def sampleUnmarshalNWS (body : String) : Except String NWSResponse :=
  if body = "forecast" then
    .ok { Properties := { Periods := [{ Temperature := .fin 85, ShortForecast := "Sunny" }] } }
  else .error "unexpected end of JSON input"

/-- Transport of the sample upstream: the grid URL of (40.7128, -74.006) is
answered 200 with the body `grid`, the forecast URL 200 with the body
`forecast`, any other URL 404. -/
def sampleRoundTrip (_sent : List HttpRequest) (req : HttpRequest) :
    Except String HttpResponse :=
  if req.URL = "https://api.weather.gov/points/40.7128,-74.0060" then
    .ok { StatusCode := 200, Body := .ok "grid" }
  else if req.URL = "https://api.weather.gov/gridpoints/OKX/33,37/forecast" then
    .ok { StatusCode := 200, Body := .ok "forecast" }
  else .ok { StatusCode := 404, Body := .ok "" }

/-- The sample upstream over the reference library. -/
def sampleEnv : Env := GoStd.env sampleUnmarshalGrid sampleUnmarshalNWS sampleRoundTrip

/-! # Theorems -/

/-! ## Coordinate validation and classification -/

theorem Float64.le_fin_iff (t : Float64) (b : ℚ) :
    t.le (.fin b) = true ↔ t = .negInf ∨ ∃ q, t.value? = some q ∧ q ≤ b := by
  cases t <;> simp [Float64.le, Float64.value?]

theorem Float64.ge_fin_iff (t : Float64) (b : ℚ) :
    t.ge (.fin b) = true ↔ t = .posInf ∨ ∃ q, t.value? = some q ∧ b ≤ q := by
  cases t <;> simp [Float64.ge, Float64.le, Float64.value?]

theorem Float64.lt_fin_iff (t : Float64) (b : ℚ) :
    t.lt (.fin b) = true ↔ t = .negInf ∨ ∃ q, t.value? = some q ∧ q < b := by
  cases t <;> simp [Float64.lt, Float64.value?]

theorem Float64.fin_lt_iff (t : Float64) (b : ℚ) :
    (Float64.fin b).lt t = true ↔ t = .posInf ∨ ∃ q, t.value? = some q ∧ b < q := by
  cases t <;> simp [Float64.lt, Float64.value?]

/-- C1: for every pair of float64 values, `IsValidCoordinates lat lon` is true
exactly when both are numbers with -90 <= lat <= 90 and -180 <= lon <= 180 (ends
included).  The pairs (90, 180) and (-90, -180) are accepted; lat = 91, lat = -91,
lon = 181, lon = -181 are rejected whatever the other component; a pair with a
NaN or an infinity in either place is rejected. -/
theorem IsValidCoordinates_iff_in_range :
    (∀ lat lon : Float64, IsValidCoordinates lat lon = true ↔
      ∃ x y : ℚ, lat.value? = some x ∧ lon.value? = some y ∧
        -90 ≤ x ∧ x ≤ 90 ∧ -180 ≤ y ∧ y ≤ 180)
    ∧ IsValidCoordinates (.fin 90) (.fin 180) = true
    ∧ IsValidCoordinates (.fin (-90)) (.fin (-180)) = true
    ∧ (∀ lon, IsValidCoordinates (.fin 91) lon = false)
    ∧ (∀ lon, IsValidCoordinates (.fin (-91)) lon = false)
    ∧ (∀ lat, IsValidCoordinates lat (.fin 181) = false)
    ∧ (∀ lat, IsValidCoordinates lat (.fin (-181)) = false)
    ∧ (∀ x, IsValidCoordinates .nan x = false ∧ IsValidCoordinates x .nan = false)
    ∧ (∀ x, IsValidCoordinates .posInf x = false ∧ IsValidCoordinates x .posInf = false)
    ∧ (∀ x, IsValidCoordinates .negInf x = false ∧ IsValidCoordinates x .negInf = false) := by
  have key : ∀ lat lon : Float64, IsValidCoordinates lat lon = true ↔
      ∃ x y : ℚ, lat.value? = some x ∧ lon.value? = some y ∧
        -90 ≤ x ∧ x ≤ 90 ∧ -180 ≤ y ∧ y ≤ 180 := by
    intro lat lon
    simp only [IsValidCoordinates, Bool.and_eq_true, Float64.le_fin_iff, Float64.ge_fin_iff]
    constructor
    · rintro ⟨⟨⟨h1, h2⟩, h3⟩, h4⟩
      rcases h1 with h1 | ⟨x, hx, hx1⟩
      · subst h1; simp [Float64.value?] at h2
      rcases h2 with h2 | ⟨x', hx', hx2⟩
      · subst h2; simp [Float64.value?] at hx
      rcases h3 with h3 | ⟨y, hy, hy1⟩
      · subst h3; simp [Float64.value?] at h4
      rcases h4 with h4 | ⟨y', hy', hy2⟩
      · subst h4; simp [Float64.value?] at hy
      have e1 : x' = x := by rw [hx] at hx'; exact (Option.some.inj hx').symm
      have e2 : y' = y := by rw [hy] at hy'; exact (Option.some.inj hy').symm
      subst e1; subst e2
      exact ⟨x', y', hx, hy, hx1, hx2, hy1, hy2⟩
    · rintro ⟨x, y, hx, hy, h1, h2, h3, h4⟩
      exact ⟨⟨⟨Or.inr ⟨x, hx, h1⟩, Or.inr ⟨x, hx, h2⟩⟩, Or.inr ⟨y, hy, h3⟩⟩, Or.inr ⟨y, hy, h4⟩⟩
  have rej : ∀ lat lon : Float64,
      (¬ ∃ x y : ℚ, lat.value? = some x ∧ lon.value? = some y ∧
        -90 ≤ x ∧ x ≤ 90 ∧ -180 ≤ y ∧ y ≤ 180) → IsValidCoordinates lat lon = false := by
    intro lat lon h
    cases hv : IsValidCoordinates lat lon
    · rfl
    · exact absurd ((key lat lon).1 hv) h
  refine ⟨key, ?_, ?_, ?_, ?_, ?_, ?_, ?_, ?_, ?_⟩
  · exact (key _ _).2 ⟨90, 180, rfl, rfl, by norm_num, by norm_num, by norm_num, by norm_num⟩
  · exact (key _ _).2 ⟨-90, -180, rfl, rfl, by norm_num, by norm_num, by norm_num, by norm_num⟩
  · intro lon; apply rej
    rintro ⟨x, y, hx, -, -, h2, -, -⟩
    simp only [Float64.value?, Option.some.injEq] at hx
    subst hx; norm_num at h2
  · intro lon; apply rej
    rintro ⟨x, y, hx, -, h1, -, -, -⟩
    simp only [Float64.value?, Option.some.injEq] at hx
    subst hx; norm_num at h1
  · intro lat; apply rej
    rintro ⟨x, y, -, hy, -, -, -, h4⟩
    simp only [Float64.value?, Option.some.injEq] at hy
    subst hy; norm_num at h4
  · intro lat; apply rej
    rintro ⟨x, y, -, hy, -, -, h3, -⟩
    simp only [Float64.value?, Option.some.injEq] at hy
    subst hy; norm_num at h3
  · intro x
    exact ⟨rej _ _ (by rintro ⟨_, _, h, -⟩; simp [Float64.value?] at h),
      rej _ _ (by rintro ⟨_, _, -, h, -⟩; simp [Float64.value?] at h)⟩
  · intro x
    exact ⟨rej _ _ (by rintro ⟨_, _, h, -⟩; simp [Float64.value?] at h),
      rej _ _ (by rintro ⟨_, _, -, h, -⟩; simp [Float64.value?] at h)⟩
  · intro x
    exact ⟨rej _ _ (by rintro ⟨_, _, h, -⟩; simp [Float64.value?] at h),
      rej _ _ (by rintro ⟨_, _, -, h, -⟩; simp [Float64.value?] at h)⟩

/-- C2: for every temperature `t` (a float64 other than NaN, which no caller of
categorizeTemperature passes), `categorizeTemperature t` is Hot if and only if
`t >= 80.0`, Cold if and only if `t <= 50.0`, and Moderate if and only if
`50.0 < t < 80.0`.  Exactly 80.0 is Hot, exactly 50.0 is Cold, and every value
strictly between 50.0 and 51.0 is Moderate: `ModerateThreshold` (51.0) plays no
part in the result. -/
theorem categorizeTemperature_thresholds :
    (∀ t : Float64, t ≠ .nan →
      (categorizeTemperature t = Hot ↔ t.ge (.fin 80) = true)
      ∧ (categorizeTemperature t = Cold ↔ t.le (.fin 50) = true)
      ∧ (categorizeTemperature t = Moderate ↔
          ((Float64.fin 50).lt t = true ∧ t.lt (.fin 80) = true))
      ∧ (categorizeTemperature t = Hot ↔ (t = .posInf ∨ ∃ q, t.value? = some q ∧ 80 ≤ q))
      ∧ (categorizeTemperature t = Cold ↔ (t = .negInf ∨ ∃ q, t.value? = some q ∧ q ≤ 50))
      ∧ (categorizeTemperature t = Moderate ↔ ∃ q, t.value? = some q ∧ 50 < q ∧ q < 80))
    ∧ categorizeTemperature (.fin 80) = Hot
    ∧ categorizeTemperature (.fin 50) = Cold
    ∧ ModerateThreshold = .fin 51
    ∧ (∀ q : ℚ, 50 < q → q < 51 → categorizeTemperature (.fin q) = Moderate) := by
  have hHC : Hot ≠ Cold := by decide
  have hHM : Hot ≠ Moderate := by decide
  have hCM : Cold ≠ Moderate := by decide
  have main : ∀ t : Float64,
      (categorizeTemperature t = Hot ↔ t.ge (.fin 80) = true)
      ∧ (categorizeTemperature t = Cold ↔ t.le (.fin 50) = true)
      ∧ (categorizeTemperature t = Moderate ↔
          (t = .nan ∨ ∃ q, t.value? = some q ∧ 50 < q ∧ q < 80)) := by
    intro t
    cases t with
    | nan => simp [categorizeTemperature, HotThreshold, ColdThreshold, Float64.ge, Float64.le,
        hHM.symm, hCM.symm]
    | posInf => simp [categorizeTemperature, HotThreshold, ColdThreshold, Float64.ge,
        Float64.le, hHC, hHM, Float64.value?]
    | negInf => simp [categorizeTemperature, HotThreshold, ColdThreshold, Float64.ge,
        Float64.le, hCM, hHC.symm, Float64.value?]
    | negZero =>
      have h80 : ¬ ((80 : ℚ) ≤ 0) := by norm_num
      have h50 : ¬ ((50 : ℚ) < 0) := by norm_num
      simp [categorizeTemperature, HotThreshold, ColdThreshold, Float64.ge,
        Float64.le, hCM, hHC.symm, Float64.value?, h80, h50]
    | fin q =>
      simp only [categorizeTemperature, HotThreshold, ColdThreshold, Float64.ge, Float64.le,
        Float64.value?, decide_eq_true_eq]
      by_cases h1 : (80 : ℚ) ≤ q
      · have h2 : ¬ q ≤ 50 := by linarith
        have h3 : ¬ q < 80 := by linarith
        simp [h1, h2, h3, hHC, hHM]
      · by_cases h2 : q ≤ 50
        · have h3 : ¬ (50 < q) := by linarith
          simp [h1, h2, h3, hHC.symm, hCM]
        · have h3 : 50 < q := by linarith
          have h4 : q < 80 := by linarith
          simp [h1, h2, h3, h4, hHM.symm, hCM.symm]
  refine ⟨?_, ?_, ?_, rfl, ?_⟩
  · intro t hne
    obtain ⟨a, b, c⟩ := main t
    have c2 : categorizeTemperature t = Moderate ↔
        ∃ q, t.value? = some q ∧ 50 < q ∧ q < 80 := by
      rw [c]
      constructor
      · rintro (h | h)
        · exact absurd h hne
        · exact h
      · exact fun h => Or.inr h
    refine ⟨a, b, ?_, ?_, ?_, c2⟩
    · rw [c2, Float64.fin_lt_iff, Float64.lt_fin_iff]
      cases t <;> simp [Float64.value?]
    · rw [a, Float64.ge_fin_iff]
    · rw [b, Float64.le_fin_iff]
  · exact (main _).1.2 rfl
  · exact (main _).2.1.2 (by simp [Float64.le])
  · intro q h1 h2
    exact (main _).2.2.2 (Or.inr ⟨q, rfl, h1, by linarith⟩)

/-- Witness for C2: the temperatures 85, 41 and 65 of the three classes, and
50.5, strictly between 50.0 and 51.0, which is Moderate. -/
theorem categorizeTemperature_thresholds_witness :
    categorizeTemperature (.fin 85) = Hot
    ∧ categorizeTemperature (.fin 41) = Cold
    ∧ categorizeTemperature (.fin 65) = Moderate
    ∧ (50 : ℚ) < mkRat 101 2 ∧ mkRat 101 2 < (51 : ℚ)
    ∧ categorizeTemperature (.fin (mkRat 101 2)) = Moderate :=
  ⟨(categorizeTemperature_thresholds.1 (.fin 85) (by decide)).1.2 (by decide),
   (categorizeTemperature_thresholds.1 (.fin 41) (by decide)).2.1.2 (by decide),
   (categorizeTemperature_thresholds.1 (.fin 65) (by decide)).2.2.1.2 (by decide),
   by decide, by decide,
   categorizeTemperature_thresholds.2.2.2.2 (mkRat 101 2) (by decide) (by decide)⟩

/-! ## The forecast hop -/

theorem fetchForecast_ok_inv (env : Env) (sent sent1 : List HttpRequest) (forecastURL : String)
    (nws : NWSResponse) (h : fetchForecast env sent forecastURL = (.ok nws, sent1)) :
    ∃ u resp body, env.urlParse forecastURL = .ok u ∧ u.Host = "api.weather.gov"
      ∧ env.roundTrip sent { Method := "GET", URL := forecastURL } = .ok resp
      ∧ resp.StatusCode = 200 ∧ resp.Body = .ok body ∧ env.unmarshalNWS body = .ok nws
      ∧ nws.Properties.Periods ≠ []
      ∧ sent1 = sent ++ [{ Method := "GET", URL := forecastURL }] := by
  unfold fetchForecast at h
  split at h
  · simp at h
  · rename_i u hu
    split at h
    · simp at h
    · rename_i hhost
      simp only at h
      split at h
      · simp at h
      · rename_i resp hresp
        split at h
        · simp at h
        · rename_i hcode
          split at h
          · simp at h
          · rename_i body hbody
            split at h
            · simp at h
            · rename_i nws1 hdec
              split at h
              · simp at h
              · rename_i hlen
                simp only [Prod.mk.injEq, Except.ok.injEq] at h
                obtain ⟨h1, h2⟩ := h
                subst h1
                refine ⟨u, resp, body, hu, ?_, hresp, ?_, hbody, hdec, ?_, h2.symm⟩
                · simpa using hhost
                · simpa using hcode
                · intro hnil
                  exact hlen (by simp [hnil])

theorem fetchForecast_ok_of (env : Env) (sent : List HttpRequest) (forecastURL : String)
    (u : URL) (resp : HttpResponse) (body : String) (nws : NWSResponse)
    (hu : env.urlParse forecastURL = .ok u) (hhost : u.Host = "api.weather.gov")
    (hresp : env.roundTrip sent { Method := "GET", URL := forecastURL } = .ok resp)
    (hcode : resp.StatusCode = 200) (hbody : resp.Body = .ok body)
    (hdec : env.unmarshalNWS body = .ok nws) (hne : nws.Properties.Periods ≠ []) :
    fetchForecast env sent forecastURL
      = (.ok nws, sent ++ [{ Method := "GET", URL := forecastURL }]) := by
  have hlen : ¬ nws.Properties.Periods.length = 0 := by
    intro h; exact hne (List.length_eq_zero.mp h)
  simp [fetchForecast, hu, hhost, hresp, hcode, hbody, hdec, hlen]

theorem fetchForecast_host_mismatch (env : Env) (sent : List HttpRequest) (forecastURL : String)
    (u : URL) (hu : env.urlParse forecastURL = .ok u) (hhost : u.Host ≠ "api.weather.gov") :
    fetchForecast env sent forecastURL = (.error "invalid forecast URL domain", sent) := by
  simp [fetchForecast, hu, hhost]

theorem fetchForecast_sent_of_host (env : Env) (sent : List HttpRequest) (forecastURL : String)
    (u : URL) (hu : env.urlParse forecastURL = .ok u) (hhost : u.Host = "api.weather.gov") :
    (fetchForecast env sent forecastURL).2
      = sent ++ [{ Method := "GET", URL := forecastURL }] := by
  simp only [fetchForecast, hu, hhost]
  simp only [ne_eq, not_true_eq_false, ↓reduceIte]
  split
  · rfl
  · split
    · rfl
    · split
      · rfl
      · split
        · rfl
        · split <;> rfl

theorem GetWeather_invalid (env : Env) (sent : List HttpRequest) (lat lon : Float64)
    (h : IsValidCoordinates lat lon = false) :
    GetWeather env sent lat lon = (.err invalidCoordinatesMsg, sent) := by
  simp [GetWeather, h]

theorem GetWeather_grid_error (env : Env) (sent sent1 : List HttpRequest) (lat lon : Float64)
    (e : String) (h : IsValidCoordinates lat lon = true)
    (hg : fetchGridData env sent lat lon = (.error e, sent1)) :
    GetWeather env sent lat lon = (.err e, sent1) := by
  simp [GetWeather, h, hg]

theorem GetWeather_forecast_error (env : Env) (sent sent1 sent2 : List HttpRequest)
    (lat lon : Float64) (g : gridResponse) (e : String) (h : IsValidCoordinates lat lon = true)
    (hg : fetchGridData env sent lat lon = (.ok g, sent1))
    (hf : fetchForecast env sent1 g.Properties.ForecastURL = (.error e, sent2)) :
    GetWeather env sent lat lon = (.err e, sent2) := by
  simp [GetWeather, h, hg, hf]

theorem GetWeather_success (env : Env) (sent sent1 sent2 : List HttpRequest)
    (lat lon : Float64) (g : gridResponse) (nws : NWSResponse) (p : Period) (rest : List Period)
    (h : IsValidCoordinates lat lon = true)
    (hg : fetchGridData env sent lat lon = (.ok g, sent1))
    (hf : fetchForecast env sent1 g.Properties.ForecastURL = (.ok nws, sent2))
    (hp : nws.Properties.Periods = p :: rest) :
    GetWeather env sent lat lon
      = (.ok { Forecast := p.ShortForecast, Temperature := p.Temperature,
               Category := categorizeTemperature p.Temperature, ErrorMessage := "" }, sent2) := by
  simp [GetWeather, h, hg, hf, hp]

theorem GetWeather_no_panic (env : Env) (sent sent1 : List HttpRequest) (lat lon : Float64)
    (msg : String) : GetWeather env sent lat lon ≠ (.panic msg, sent1) := by
  intro h
  unfold GetWeather at h
  split at h
  · simp at h
  · split at h
    · simp at h
    · rename_i g s1 hg
      split at h
      · simp at h
      · rename_i nws s2 hf
        obtain ⟨_, _, _, _, _, _, _, _, _, hne, _⟩ := fetchForecast_ok_inv env _ _ _ _ hf
        split at h
        · rename_i hnil; exact hne hnil
        · simp at h

theorem fetchGridData_ok_inv (env : Env) (sent sent1 : List HttpRequest) (lat lon : Float64)
    (g : gridResponse) (h : fetchGridData env sent lat lon = (.ok g, sent1)) :
    ∃ gridURL, buildGridURL env lat lon = .ok gridURL ∧ sent1 = sent ++ [gridCall gridURL] := by
  unfold fetchGridData at h
  split at h
  · simp at h
  · rename_i gridURL hurl
    refine ⟨gridURL, hurl, ?_⟩
    split at h
    · simp at h
    · rename_i req hreq
      have hreq2 : req = { Method := "GET", URL := gridURL } := by
        unfold newGetRequest at hreq
        split at hreq
        · simp at hreq
        · simp only [Except.ok.injEq] at hreq; exact hreq.symm
      subst hreq2
      simp only at h
      split at h
      · simp at h
      · split at h
        · simp at h
        · split at h
          · simp at h
          · split at h
            · simp at h
            · simp only [Prod.mk.injEq] at h
              exact h.2.symm

/-- No text that starts like a stage error of the two hops is the range-check text. -/
theorem ne_invalidCoordinatesMsg (pre rest : String) (hlen : 9 ≤ pre.data.length)
    (hne : pre.data.take 9 ≠ invalidCoordinatesMsg.data.take 9) :
    pre ++ rest ≠ invalidCoordinatesMsg := by
  intro h
  apply hne
  have h2 := congrArg (fun s => s.data.take 9) h
  simp only [String.data_append] at h2
  rw [List.take_append_of_le_length hlen] at h2
  exact h2

theorem fetchGridData_error_ne (env : Env) (sent sent1 : List HttpRequest) (lat lon : Float64)
    (e : String) (h : fetchGridData env sent lat lon = (.error e, sent1)) :
    e ≠ invalidCoordinatesMsg := by
  have key : ∀ pre rest : String, 9 ≤ pre.data.length →
      pre.data.take 9 ≠ invalidCoordinatesMsg.data.take 9 →
      ((Except.error (pre ++ rest) : Except String gridResponse), sent1) = (.error e, sent1) →
      e ≠ invalidCoordinatesMsg := by
    intro pre rest h1 h2 h3
    simp only [Prod.mk.injEq, Except.error.injEq, and_true] at h3
    subst h3
    exact ne_invalidCoordinatesMsg _ _ h1 h2
  have fix : ∀ (x : Except String gridResponse) (s : List HttpRequest),
      (x, s) = (.error e, sent1) → (x, sent1) = (.error e, sent1) := by
    intro x s hx
    simp only [Prod.mk.injEq] at hx ⊢
    exact ⟨hx.1, trivial⟩
  unfold fetchGridData at h
  split at h
  · exact key _ _ (by decide) (by decide) (fix _ _ h)
  · split at h
    · exact key _ _ (by decide) (by decide) (fix _ _ h)
    · dsimp only at h
      split at h
      · exact key _ _ (by decide) (by decide) (fix _ _ h)
      · split at h
        · exact key _ _ (by decide) (by decide) (fix _ _ h)
        · split at h
          · exact key _ _ (by decide) (by decide) (fix _ _ h)
          · split at h
            · exact key _ _ (by decide) (by decide) (fix _ _ h)
            · simp at h

theorem fetchForecast_error_ne (env : Env) (sent sent1 : List HttpRequest) (forecastURL : String)
    (e : String) (h : fetchForecast env sent forecastURL = (.error e, sent1)) :
    e ≠ invalidCoordinatesMsg := by
  have key : ∀ pre rest : String, 9 ≤ pre.data.length →
      pre.data.take 9 ≠ invalidCoordinatesMsg.data.take 9 →
      ((Except.error (pre ++ rest) : Except String NWSResponse), sent1) = (.error e, sent1) →
      e ≠ invalidCoordinatesMsg := by
    intro pre rest h1 h2 h3
    simp only [Prod.mk.injEq, Except.error.injEq, and_true] at h3
    subst h3
    exact ne_invalidCoordinatesMsg _ _ h1 h2
  have fix : ∀ (x : Except String NWSResponse) (s : List HttpRequest),
      (x, s) = (.error e, sent1) → (x, sent1) = (.error e, sent1) := by
    intro x s hx
    simp only [Prod.mk.injEq] at hx ⊢
    exact ⟨hx.1, trivial⟩
  have lit : ∀ m : String, m ≠ invalidCoordinatesMsg →
      ((Except.error m : Except String NWSResponse), sent1) = (.error e, sent1) →
      e ≠ invalidCoordinatesMsg := by
    intro m hm h3
    simp only [Prod.mk.injEq, Except.error.injEq, and_true] at h3
    subst h3
    exact hm
  unfold fetchForecast at h
  split at h
  · exact key _ _ (by decide) (by decide) (fix _ _ h)
  · split at h
    · exact lit _ (by decide) (fix _ _ h)
    · dsimp only at h
      split at h
      · exact key _ _ (by decide) (by decide) (fix _ _ h)
      · split at h
        · exact key _ _ (by decide) (by decide) (fix _ _ h)
        · split at h
          · exact key _ _ (by decide) (by decide) (fix _ _ h)
          · split at h
            · exact key _ _ (by decide) (by decide) (fix _ _ h)
            · split at h
              · exact lit _ (by decide) (fix _ _ h)
              · simp at h

theorem GetWeather_valid_ne_invalid (env : Env) (sent sent1 : List HttpRequest)
    (lat lon : Float64) (hv : IsValidCoordinates lat lon = true) :
    GetWeather env sent lat lon ≠ (.err invalidCoordinatesMsg, sent1) := by
  intro h
  unfold GetWeather at h
  simp only [hv, Bool.not_true, Bool.false_eq_true, ↓reduceIte] at h
  split at h
  · rename_i e s1 hg
    simp only [Prod.mk.injEq, Result.err.injEq] at h
    exact fetchGridData_error_ne env _ _ _ _ _ hg h.1
  · split at h
    · rename_i e s2 hf
      simp only [Prod.mk.injEq, Result.err.injEq] at h
      exact fetchForecast_error_ne env _ _ _ _ hf h.1
    · split at h <;> simp at h

theorem buildGridURL_ok_of (env : Env) (lat lon : Float64) (base : URL)
    (hbase : env.urlParse baseURL = .ok base) :
    buildGridURL env lat lon
      = .ok (env.urlString
          { base with Path := "/points/" ++ env.Sprintf4f lat ++ "," ++ env.Sprintf4f lon }) := by
  simp only [buildGridURL, hbase]

theorem fetchGridData_ok_of (env : Env) (sent : List HttpRequest) (lat lon : Float64)
    (gridURL : String) (gu : URL) (gresp : HttpResponse) (gbody : String) (g : gridResponse)
    (hurl : buildGridURL env lat lon = .ok gridURL) (hreq : env.urlParse gridURL = .ok gu)
    (hresp : env.roundTrip sent (gridCall gridURL) = .ok gresp)
    (hcode : gresp.StatusCode = 200) (hbody : gresp.Body = .ok gbody)
    (hdec : env.unmarshalGrid gbody = .ok g) :
    fetchGridData env sent lat lon = (.ok g, sent ++ [gridCall gridURL]) := by
  have hresp2 : env.roundTrip sent
      { Method := "GET", URL := gridURL, UserAgent := "WeatherService/1.0" } = .ok gresp := hresp
  simp [fetchGridData, hurl, newGetRequest, hreq, hresp2, hcode, hbody, hdec, gridCall]

theorem GetWeather_ok_of (env : Env) (sent : List HttpRequest) (lat lon : Float64)
    (gridURL : String) (gu : URL) (gresp : HttpResponse) (gbody : String) (g : gridResponse)
    (u : URL) (resp : HttpResponse) (body : String) (nws : NWSResponse) (p : Period)
    (rest : List Period) (hvalid : IsValidCoordinates lat lon = true)
    (hurl : buildGridURL env lat lon = .ok gridURL) (hreq : env.urlParse gridURL = .ok gu)
    (hgresp : env.roundTrip sent (gridCall gridURL) = .ok gresp)
    (hgcode : gresp.StatusCode = 200) (hgbody : gresp.Body = .ok gbody)
    (hgdec : env.unmarshalGrid gbody = .ok g)
    (hu : env.urlParse g.Properties.ForecastURL = .ok u) (hhost : u.Host = "api.weather.gov")
    (hresp : env.roundTrip (sent ++ [gridCall gridURL]) (getCall g.Properties.ForecastURL)
      = .ok resp)
    (hcode : resp.StatusCode = 200) (hbody : resp.Body = .ok body)
    (hdec : env.unmarshalNWS body = .ok nws) (hp : nws.Properties.Periods = p :: rest) :
    GetWeather env sent lat lon
      = (.ok { Forecast := p.ShortForecast, Temperature := p.Temperature,
               Category := categorizeTemperature p.Temperature, ErrorMessage := "" },
          sent ++ [gridCall gridURL, getCall g.Properties.ForecastURL]) := by
  have hg := fetchGridData_ok_of env sent lat lon gridURL gu gresp gbody g hurl hreq hgresp
    hgcode hgbody hgdec
  have hne : nws.Properties.Periods ≠ [] := by rw [hp]; simp
  have hf := fetchForecast_ok_of env (sent ++ [gridCall gridURL]) g.Properties.ForecastURL u
    resp body nws hu hhost hresp hcode hbody hdec hne
  have hG := GetWeather_success env sent _ _ lat lon g nws p rest hvalid hg hf hp
  rw [hG]
  simp [getCall]

/-! ## The reference library instances -/

namespace GoStd

/-- The ten decimal digit characters. -/
theorem digitChar_mem (k : Nat) :
    digitChar k ∈ ['0', '1', '2', '3', '4', '5', '6', '7', '8', '9'] := by
  unfold digitChar
  split <;> simp

theorem digitsAux_mem (fuel n : Nat) (acc : List Char)
    (hacc : ∀ c ∈ acc, c ∈ ['0', '1', '2', '3', '4', '5', '6', '7', '8', '9']) :
    ∀ c ∈ digitsAux fuel n acc, c ∈ ['0', '1', '2', '3', '4', '5', '6', '7', '8', '9'] := by
  induction fuel generalizing n acc with
  | zero => simpa [digitsAux] using hacc
  | succ fuel ih =>
    have hcons : ∀ c ∈ digitChar n :: acc,
        c ∈ ['0', '1', '2', '3', '4', '5', '6', '7', '8', '9'] := by
      intro c hc
      rcases List.mem_cons.mp hc with h | h
      · subst h; exact digitChar_mem n
      · exact hacc c h
    unfold digitsAux
    split
    · exact hcons
    · exact ih _ _ hcons

theorem digitsAux_ne_nil (fuel n : Nat) (acc : List Char) :
    digitsAux (fuel + 1) n acc ≠ [] := by
  induction fuel generalizing n acc with
  | zero => unfold digitsAux; split <;> simp [digitsAux]
  | succ fuel ih =>
    unfold digitsAux
    split
    · simp
    · exact ih _ _

theorem digits_mem (n : Nat) :
    ∀ c ∈ digits n, c ∈ ['0', '1', '2', '3', '4', '5', '6', '7', '8', '9'] :=
  digitsAux_mem _ _ [] (by simp)

theorem digits_ne_nil (n : Nat) : digits n ≠ [] := digitsAux_ne_nil _ _ _

/-- The rendering `digits` denotes the number it was given. -/
theorem digitChar_toNat (k : Nat) : (digitChar k).toNat - 48 = k % 10 := by
  have h : k % 10 < 10 := Nat.mod_lt _ (by norm_num)
  generalize hm : k % 10 = m at h
  unfold digitChar
  rw [hm]
  interval_cases m <;> rfl

theorem foldl_digits (l : List Char) (a : Nat) :
    l.foldl (fun acc c => acc * 10 + (c.toNat - 48)) a = a * 10 ^ l.length + digitsValue l := by
  induction l generalizing a with
  | nil => simp [digitsValue]
  | cons c cs ih =>
    simp only [List.foldl_cons, digitsValue, List.length_cons]
    rw [ih, ih (0 * 10 + (c.toNat - 48))]
    ring

theorem digitsValue_cons (c : Char) (cs : List Char) :
    digitsValue (c :: cs) = (c.toNat - 48) * 10 ^ cs.length + digitsValue cs := by
  simp only [digitsValue, List.foldl_cons]
  rw [foldl_digits]
  simp [digitsValue]

theorem digitsValue_digitsAux (fuel n : Nat) (acc : List Char) (h : n < 10 ^ fuel) :
    digitsValue (digitsAux fuel n acc) = n * 10 ^ acc.length + digitsValue acc := by
  induction fuel generalizing n acc with
  | zero =>
    have : n = 0 := by simpa using h
    subst this; simp [digitsAux]
  | succ fuel ih =>
    unfold digitsAux
    split
    · rename_i h0
      have hn : n % 10 = n := by omega
      rw [digitsValue_cons, digitChar_toNat, hn]
    · have hlt : n / 10 < 10 ^ fuel := by
        rw [Nat.div_lt_iff_lt_mul (by norm_num)]
        rw [pow_succ] at h; exact h
      rw [ih _ _ hlt, digitsValue_cons, digitChar_toNat, List.length_cons, pow_succ]
      have h10 := Nat.div_add_mod n 10
      calc n / 10 * (10 ^ acc.length * 10) + (n % 10 * 10 ^ acc.length + digitsValue acc)
          = (10 * (n / 10) + n % 10) * 10 ^ acc.length + digitsValue acc := by ring
        _ = n * 10 ^ acc.length + digitsValue acc := by rw [h10]

theorem digitsValue_digits (n : Nat) : digitsValue (digits n) = n := by
  have h : n < 10 ^ (n + 1) := by
    calc n < 2 ^ n := Nat.lt_two_pow n
      _ ≤ 10 ^ n := Nat.pow_le_pow_left (by norm_num) n
      _ ≤ 10 ^ (n + 1) := Nat.pow_le_pow_right (by norm_num) (Nat.le_succ n)
  simpa [digits] using digitsValue_digitsAux (n + 1) n [] h
theorem pad4_mem (n : Nat) :
    ∀ c ∈ pad4 n, c ∈ ['0', '1', '2', '3', '4', '5', '6', '7', '8', '9'] := by
  intro c hc
  simp only [pad4, List.mem_cons, List.mem_singleton, List.not_mem_nil, or_false] at hc
  rcases hc with h | h | h | h <;> subst h <;> exact digitChar_mem _

theorem isDigit_of_mem :
    ∀ c ∈ ['0', '1', '2', '3', '4', '5', '6', '7', '8', '9'], c.isDigit = true := by decide

theorem takeWhile_isDigit_append (ds rest : List Char)
    (hds : ∀ c ∈ ds, c ∈ ['0', '1', '2', '3', '4', '5', '6', '7', '8', '9']) :
    (ds ++ '.' :: rest).takeWhile Char.isDigit = ds
    ∧ (ds ++ '.' :: rest).dropWhile Char.isDigit = '.' :: rest := by
  induction ds with
  | nil => exact ⟨rfl, rfl⟩
  | cons d ds ih =>
    have hd : d.isDigit = true := isDigit_of_mem d (hds d (List.mem_cons_self _ _))
    obtain ⟨h1, h2⟩ := ih (fun c hc => hds c (List.mem_cons_of_mem _ hc))
    simp [List.takeWhile_cons, List.dropWhile_cons, hd, h1, h2]

theorem isFixed4_numeral (ds fp : List Char) (hne : ds ≠ [])
    (hds : ∀ c ∈ ds, c ∈ ['0', '1', '2', '3', '4', '5', '6', '7', '8', '9'])
    (hfp : ∀ c ∈ fp, c ∈ ['0', '1', '2', '3', '4', '5', '6', '7', '8', '9'])
    (hlen : fp.length = 4) :
    isFixed4 (ds ++ '.' :: fp) = true ∧ isFixed4 ('-' :: (ds ++ '.' :: fp)) = true := by
  obtain ⟨h1, h2⟩ := takeWhile_isDigit_append ds fp hds
  have hall : fp.all Char.isDigit = true :=
    List.all_eq_true.mpr (fun c hc => isDigit_of_mem c (hfp c hc))
  have hemp : ds.isEmpty = false := by cases ds <;> simp_all
  have hhead : ∀ t, ds ++ '.' :: fp ≠ '-' :: t := by
    intro t h
    cases ds with
    | nil => exact hne rfl
    | cons d ds =>
      have hd := hds d (List.mem_cons_self _ _)
      simp only [List.cons_append, List.cons.injEq] at h
      rw [h.1] at hd
      revert hd; decide
  constructor
  · unfold isFixed4
    have : (match ds ++ '.' :: fp with
        | '-' :: t => t
        | t => t) = ds ++ '.' :: fp := by
      split
      · rename_i t heq; exact absurd heq (hhead t)
      · rfl
    simp only [this, h1, h2, hall, hemp, hlen]
    simp
  · unfold isFixed4
    simp only [h1, h2, hall, hemp, hlen]
    simp

theorem isFixed4_sprintf4f (x : Float64) : isFixed4 (sprintf4fChars x) = x.isFinite := by
  cases x with
  | nan => decide
  | posInf => decide
  | negInf => decide
  | negZero => decide
  | fin q =>
    simp only [sprintf4fChars, Float64.isFinite]
    have h := isFixed4_numeral (digits (roundHalfEven (q.num.natAbs * 10000) q.den / 10000))
      (pad4 (roundHalfEven (q.num.natAbs * 10000) q.den % 10000)) (digits_ne_nil _)
      (digits_mem _) (pad4_mem _) rfl
    split
    · exact h.2
    · exact h.1

/-- The characters `fmt.Sprintf("%.4f", _)` can produce. -/
theorem sprintf4fChars_mem (x : Float64) :
    ∀ c ∈ sprintf4fChars x,
      c ∈ ['0', '1', '2', '3', '4', '5', '6', '7', '8', '9', '.', '-', '+', 'N', 'a', 'I', 'n', 'f'] := by
  have up : ∀ c, c ∈ ['0', '1', '2', '3', '4', '5', '6', '7', '8', '9'] →
      c ∈ ['0', '1', '2', '3', '4', '5', '6', '7', '8', '9', '.', '-', '+', 'N', 'a', 'I', 'n', 'f'] := by
    intro c hc
    simp only [List.mem_cons, List.mem_singleton, List.not_mem_nil, or_false] at hc ⊢
    tauto
  cases x with
  | nan => decide
  | posInf => decide
  | negInf => decide
  | negZero => decide
  | fin q =>
    intro c hc
    simp only [sprintf4fChars] at hc
    have hbody : ∀ c ∈ digits (roundHalfEven (q.num.natAbs * 10000) q.den / 10000) ++
        '.' :: pad4 (roundHalfEven (q.num.natAbs * 10000) q.den % 10000),
        c ∈ ['0', '1', '2', '3', '4', '5', '6', '7', '8', '9', '.', '-', '+', 'N', 'a', 'I', 'n', 'f'] := by
      intro c hc
      rcases List.mem_append.mp hc with h | h
      · exact up c (digits_mem _ c h)
      · rcases List.mem_cons.mp h with h | h
        · subst h; decide
        · exact up c (pad4_mem _ c h)
    split at hc
    · rcases List.mem_cons.mp hc with h | h
      · subst h; decide
      · exact hbody c h
    · exact hbody c hc

end GoStd
namespace GoStd

theorem cut_not_mem (sep : Char) (l : List Char) (h : sep ∉ l) : cut sep l = (l, none) := by
  induction l with
  | nil => rfl
  | cons c cs ih =>
    have hc : c ≠ sep := fun e => h (e ▸ List.mem_cons_self _ _)
    have hcs : sep ∉ cs := fun m => h (List.mem_cons_of_mem _ m)
    simp [cut, hc, ih hcs]

/-- Properties of the characters that can follow `/points/` in a grid URL. -/
theorem gridChar_props :
    ∀ c ∈ ['0', '1', '2', '3', '4', '5', '6', '7', '8', '9', '.', '-', '+', 'N', 'a', 'I',
        'n', 'f', ','],
      unsupported c = false ∧ isCTL c = false ∧ pathPlain c = true ∧ c ≠ '#' ∧ c ≠ '?' := by
  decide

theorem parseURLChars_grid (T : List Char)
    (hT : ∀ c ∈ T, c ∈ ['0', '1', '2', '3', '4', '5', '6', '7', '8', '9', '.', '-', '+', 'N',
      'a', 'I', 'n', 'f', ',']) :
    parseURLChars ("https://api.weather.gov/points/".data ++ T)
      = some (.ok { Scheme := "https", Host := "api.weather.gov",
                    Path := String.mk ("/points/".data ++ T) }) := by
  have hunsup : T.any unsupported = false := by
    rw [List.any_eq_false]
    intro c hc; simp [(gridChar_props c (hT c hc)).1]
  have hctl : T.any isCTL = false := by
    rw [List.any_eq_false]
    intro c hc; simp [(gridChar_props c (hT c hc)).2.1]
  have hplain : T.all pathPlain = true :=
    List.all_eq_true.mpr (fun c hc => (gridChar_props c (hT c hc)).2.2.1)
  have hhash : '#' ∉ T := fun m => (gridChar_props _ (hT _ m)).2.2.2.1 rfl
  have hq : '?' ∉ T := fun m => (gridChar_props _ (hT _ m)).2.2.2.2 rfl
  have hhash2 : '#' ∉ "https://api.weather.gov/points/".data ++ T := by
    intro m
    rcases List.mem_append.mp m with h | h
    · revert h; decide
    · exact hhash h
  have hq2 : '?' ∉ "//api.weather.gov/points/".data ++ T := by
    intro m
    rcases List.mem_append.mp m with h | h
    · revert h; decide
    · exact hq h
  have hscheme : getScheme ("https://api.weather.gov/points/".data ++ T)
      = .ok ("https".data, "//api.weather.gov/points/".data ++ T) := rfl
  have hauth : cut '/' (("//api.weather.gov/points/".data ++ T).drop 2)
      = ("api.weather.gov".data, some ("points/".data ++ T)) := rfl
  have hhost : parseHost "api.weather.gov".data = .ok "api.weather.gov".data := by decide
  have hnf : parseNoFragment ("https://api.weather.gov/points/".data ++ T)
      = some (.ok { Scheme := "https", Host := "api.weather.gov",
                    Path := String.mk ("/points/".data ++ T) }) := by
    have hPctl : "https://api.weather.gov/points/".data.any isCTL = false := by decide
    have hPplain : ('/' :: ("points/".data ++ T)).all pathPlain = true := by
      rw [List.all_cons, List.all_append, hplain]; decide
    have hstar : "https://api.weather.gov/points/".data ++ T ≠ ['*'] := by
      intro h; cases h
    unfold parseNoFragment
    rw [List.any_append, hctl, hPctl]
    simp only [hscheme, cut_not_mem _ _ hq2, hauth, hhost, hPplain, hstar]
    simp
  have hPunsup : "https://api.weather.gov/points/".data.any unsupported = false := by decide
  unfold parseURLChars
  rw [List.any_append, hunsup, hPunsup, cut_not_mem _ _ hhash2]
  simp only [hnf]
  rfl

end GoStd
namespace GoStd

theorem urlStringChars_grid (T : List Char)
    (hT : ∀ c ∈ T, c ∈ ['0', '1', '2', '3', '4', '5', '6', '7', '8', '9', '.', '-', '+', 'N',
      'a', 'I', 'n', 'f', ',']) :
    urlStringChars { Scheme := "https", Host := "api.weather.gov",
                     Path := String.mk ("/points/".data ++ T) }
      = some ("https://api.weather.gov/points/".data ++ T) := by
  have hplain : ("/points/".data ++ T).all pathPlain = true := by
    rw [List.all_append]
    have : T.all pathPlain = true :=
      List.all_eq_true.mpr (fun c hc => (gridChar_props c (hT c hc)).2.2.1)
    rw [this]; decide
  have hhost : "api.weather.gov".data.all hostPlain = true := by decide
  have hfrag : "".data.all fragmentPlain = true := by decide
  have hpath : (String.mk ("/points/".data ++ T)) ≠ "" := by
    intro h
    have := congrArg String.data h
    simp at this
  unfold urlStringChars
  simp only [hplain, hhost, hfrag, hpath]
  simp

theorem gridTail_mem (lat lon : Float64) :
    ∀ c ∈ sprintf4fChars lat ++ ',' :: sprintf4fChars lon,
      c ∈ ['0', '1', '2', '3', '4', '5', '6', '7', '8', '9', '.', '-', '+', 'N', 'a', 'I', 'n',
        'f', ','] := by
  have up : ∀ c,
      c ∈ ['0', '1', '2', '3', '4', '5', '6', '7', '8', '9', '.', '-', '+', 'N', 'a', 'I', 'n', 'f'] →
      c ∈ ['0', '1', '2', '3', '4', '5', '6', '7', '8', '9', '.', '-', '+', 'N', 'a', 'I', 'n',
        'f', ','] := by
    intro c hc
    simp only [List.mem_cons, List.mem_singleton, List.not_mem_nil, or_false] at hc ⊢
    tauto
  intro c hc
  rcases List.mem_append.mp hc with h | h
  · exact up c (sprintf4fChars_mem lat c h)
  · rcases List.mem_cons.mp h with h | h
    · subst h; decide
    · exact up c (sprintf4fChars_mem lon c h)

theorem gridURL_eq (lat lon : Float64) :
    "https://api.weather.gov/points/" ++ sprintf4f lat ++ "," ++ sprintf4f lon
      = String.mk ("https://api.weather.gov/points/".data
          ++ (sprintf4fChars lat ++ ',' :: sprintf4fChars lon)) := by
  apply String.ext
  simp [sprintf4f, String.data_append]

theorem parseURL_baseURL :
    parseURL baseURL = some (.ok { Scheme := "https", Host := "api.weather.gov" }) := by
  decide

theorem buildGridURL_env (ug : String → Except String gridResponse)
    (un : String → Except String NWSResponse)
    (rt : List HttpRequest → HttpRequest → Except String HttpResponse) (lat lon : Float64) :
    buildGridURL (env ug un rt) lat lon
      = .ok ("https://api.weather.gov/points/" ++ sprintf4f lat ++ "," ++ sprintf4f lon) := by
  have hpath : "/points/" ++ sprintf4f lat ++ "," ++ sprintf4f lon
      = String.mk ("/points/".data ++ (sprintf4fChars lat ++ ',' :: sprintf4fChars lon)) := by
    apply String.ext
    simp [sprintf4f, String.data_append]
  simp only [buildGridURL, env, parseURL_baseURL, Option.getD_some, hpath, urlString,
    urlStringChars_grid _ (gridTail_mem lat lon), Option.map_some', gridURL_eq]

theorem parseURL_gridURL (lat lon : Float64) :
    parseURL ("https://api.weather.gov/points/" ++ sprintf4f lat ++ "," ++ sprintf4f lon)
      = some (.ok { Scheme := "https", Host := "api.weather.gov",
                    Path := "/points/" ++ sprintf4f lat ++ "," ++ sprintf4f lon }) := by
  have hpath : "/points/" ++ sprintf4f lat ++ "," ++ sprintf4f lon
      = String.mk ("/points/".data ++ (sprintf4fChars lat ++ ',' :: sprintf4fChars lon)) := by
    apply String.ext
    simp [sprintf4f, String.data_append]
  rw [gridURL_eq, hpath]
  exact parseURLChars_grid _ (gridTail_mem lat lon)

end GoStd
/-! ## The claims on the handlers and the two-hop lookup -/

/-- C3: on a writer to which no status has been written, coordinateValidator
answers 400 without invoking the next handler (the outcome is the same for every
`next`) in exactly four cases, tried in this order: `lat` or `lon` absent or empty
("latitude and longitude are required"); `lat` does not parse ("invalid latitude
format"); `lon` does not parse ("invalid longitude format"); the parsed pair is
not valid ("coordinates out of valid range").  In the remaining case it writes no
status and its outcome is that of one call of `next` on the request with the two
context values added. -/
theorem coordinateValidator_outcomes (env : Env) (next : Handler) (w : ResponseWriter)
    (r : Request) (sent : List HttpRequest) (hw : w.Status = none) :
    (∀ key, r.Query.Get key = "" ↔ (r.Query key = [] ∨ (r.Query key).head? = some ""))
    ∧ ((r.Query.Get "lat" = "" ∨ r.Query.Get "lon" = "") →
        coordinateValidator env next w r sent
          = .returned (errorReply (w.HeaderSet "Content-Type" "application/json") 400
              "latitude and longitude are required") sent)
    ∧ (r.Query.Get "lat" ≠ "" → r.Query.Get "lon" ≠ "" →
        ∀ e, env.ParseFloat (r.Query.Get "lat") = .error e →
        coordinateValidator env next w r sent
          = .returned (errorReply (w.HeaderSet "Content-Type" "application/json") 400
              "invalid latitude format") sent)
    ∧ (r.Query.Get "lat" ≠ "" → r.Query.Get "lon" ≠ "" →
        ∀ lat e, env.ParseFloat (r.Query.Get "lat") = .ok lat →
        env.ParseFloat (r.Query.Get "lon") = .error e →
        coordinateValidator env next w r sent
          = .returned (errorReply (w.HeaderSet "Content-Type" "application/json") 400
              "invalid longitude format") sent)
    ∧ (r.Query.Get "lat" ≠ "" → r.Query.Get "lon" ≠ "" →
        ∀ lat lon, env.ParseFloat (r.Query.Get "lat") = .ok lat →
        env.ParseFloat (r.Query.Get "lon") = .ok lon →
        IsValidCoordinates lat lon = false →
        coordinateValidator env next w r sent
          = .returned (errorReply (w.HeaderSet "Content-Type" "application/json") 400
              "coordinates out of valid range") sent)
    ∧ (r.Query.Get "lat" ≠ "" → r.Query.Get "lon" ≠ "" →
        ∀ lat lon, env.ParseFloat (r.Query.Get "lat") = .ok lat →
        env.ParseFloat (r.Query.Get "lon") = .ok lon →
        IsValidCoordinates lat lon = true →
        coordinateValidator env next w r sent
          = next (w.HeaderSet "Content-Type" "application/json")
              (r.WithContext ((r.Ctx.WithValue (.string "lat") (.float64 lat)).WithValue
                (.string "lon") (.float64 lon))) sent
        ∧ (w.HeaderSet "Content-Type" "application/json").Status = none) := by
  have hrep : ∀ msg : String,
      ((w.HeaderSet "Content-Type" "application/json").WriteHeader 400).Encode
          { ErrorMessage := msg }
        = errorReply (w.HeaderSet "Content-Type" "application/json") 400 msg := by
    intro msg
    simp [ResponseWriter.HeaderSet, ResponseWriter.WriteHeader, ResponseWriter.Encode,
      errorReply, hw, Float64.isFinite]
  refine ⟨?_, ?_, ?_, ?_, ?_, ?_⟩
  · intro key
    unfold Values.Get
    cases h : r.Query key with
    | nil => simp
    | cons x xs => simp
  · intro h
    simp only [coordinateValidator, hrep]
    rw [if_pos h]
  · intro h1 h2 e he
    simp only [coordinateValidator, hrep]
    rw [if_neg (by tauto)]
    simp [he]
  · intro h1 h2 lat e hlat he
    simp only [coordinateValidator, hrep]
    rw [if_neg (by tauto)]
    simp [hlat, he]
  · intro h1 h2 lat lon hlat hlon hv
    simp only [coordinateValidator, hrep]
    rw [if_neg (by tauto)]
    simp [hlat, hlon, hv]
  · intro h1 h2 lat lon hlat hlon hv
    refine ⟨?_, by simp [ResponseWriter.HeaderSet, hw]⟩
    simp only [coordinateValidator]
    rw [if_neg (by tauto)]
    simp [hlat, hlon, hv]

/-- Witness for C3: the four rejected requests of the handler test and one
accepted request, over the reference `strconv.ParseFloat`. -/
theorem coordinateValidator_outcomes_witness :
    coordinateValidator (cannedEnv 200 "" []) (weatherHandler (cannedEnv 200 "" [])) freshWriter
        (requestOf none none) []
      = .returned { Header := [("Content-Type", "application/json")], Status := some 400,
                    Body := [{ ErrorMessage := "latitude and longitude are required" }] } []
    ∧ coordinateValidator (cannedEnv 200 "" []) (weatherHandler (cannedEnv 200 "" []))
        freshWriter (requestOf (some "invalid") (some "-74.0060")) []
      = .returned { Header := [("Content-Type", "application/json")], Status := some 400,
                    Body := [{ ErrorMessage := "invalid latitude format" }] } []
    ∧ coordinateValidator (cannedEnv 200 "" []) (weatherHandler (cannedEnv 200 "" []))
        freshWriter (requestOf (some "40.7128") (some "invalid")) []
      = .returned { Header := [("Content-Type", "application/json")], Status := some 400,
                    Body := [{ ErrorMessage := "invalid longitude format" }] } []
    ∧ coordinateValidator (cannedEnv 200 "" []) (weatherHandler (cannedEnv 200 "" []))
        freshWriter (requestOf (some "91.0") (some "-74.0060")) []
      = .returned { Header := [("Content-Type", "application/json")], Status := some 400,
                    Body := [{ ErrorMessage := "coordinates out of valid range" }] } []
    ∧ coordinateValidator (cannedEnv 200 "" []) (weatherHandler (cannedEnv 200 "" []))
        freshWriter (requestOf (some "40.7128") (some "-74.0060")) []
      = weatherHandler (cannedEnv 200 "" [])
          { Header := [("Content-Type", "application/json")], Status := none, Body := [] }
          { Query := queryOf (some "40.7128") (some "-74.0060"),
            Ctx := [(.string "lon", .float64 lonNeg74006), (.string "lat", .float64 lat407128)] }
          [] :=
  ⟨(coordinateValidator_outcomes (cannedEnv 200 "" []) (weatherHandler (cannedEnv 200 "" []))
      freshWriter (requestOf none none) [] rfl).2.1 (by decide),
   (coordinateValidator_outcomes (cannedEnv 200 "" []) (weatherHandler (cannedEnv 200 "" []))
      freshWriter (requestOf (some "invalid") (some "-74.0060")) [] rfl).2.2.1
      (by decide) (by decide) "invalid syntax" (by decide),
   (coordinateValidator_outcomes (cannedEnv 200 "" []) (weatherHandler (cannedEnv 200 "" []))
      freshWriter (requestOf (some "40.7128") (some "invalid")) [] rfl).2.2.2.1
      (by decide) (by decide) lat407128 "invalid syntax" (by decide) (by decide),
   (coordinateValidator_outcomes (cannedEnv 200 "" []) (weatherHandler (cannedEnv 200 "" []))
      freshWriter (requestOf (some "91.0") (some "-74.0060")) [] rfl).2.2.2.2.1
      (by decide) (by decide) (.fin 91) lonNeg74006 (by decide) (by decide) (by decide),
   ((coordinateValidator_outcomes (cannedEnv 200 "" []) (weatherHandler (cannedEnv 200 "" []))
      freshWriter (requestOf (some "40.7128") (some "-74.0060")) [] rfl).2.2.2.2.2
      (by decide) (by decide) lat407128 lonNeg74006 (by decide) (by decide) (by decide)).1⟩

theorem parseURL_empty : GoStd.parseURL "" = some (.ok {}) := by decide

theorem env_urlParse (ug : String → Except String gridResponse)
    (un : String → Except String NWSResponse)
    (rt : List HttpRequest → HttpRequest → Except String HttpResponse) (s : String) (u : URL)
    (h : GoStd.parseURL s = some (.ok u)) : (GoStd.env ug un rt).urlParse s = .ok u := by
  simp only [GoStd.env, h, Option.getD_some]

theorem weatherHandler_of_ctx (env : Env) (w : ResponseWriter) (r : Request)
    (sent : List HttpRequest) (lat lon : Float64)
    (hlat : r.Ctx.Value (.string "lat") = some (.float64 lat))
    (hlon : r.Ctx.Value (.string "lon") = some (.float64 lon)) :
    weatherHandler env w r sent
      = match GetWeather env sent lat lon with
        | (.panic msg, _) => .panicked msg
        | (.err err, sent1) =>
          .returned ((w.WriteHeader 500).Encode { ErrorMessage := err }) sent1
        | (.ok weatherData, sent1) => .returned (w.Encode weatherData) sent1 := by
  simp only [weatherHandler, hlat, hlon]

/-- C4: a forecast URL whose parsed host is not `api.weather.gov` makes
fetchForecast return the error "invalid forecast URL domain" with the list of
outbound calls unchanged (no request is issued to it); GetWeather then returns
that error and no result, having issued only the grid call.  With the reference
`url.Parse` this covers the empty string and a well-formed URL on another host. -/
theorem fetchForecast_foreign_host (env : Env) :
    (∀ (sent : List HttpRequest) (forecastURL : String) (u : URL),
        env.urlParse forecastURL = .ok u → u.Host ≠ "api.weather.gov" →
        fetchForecast env sent forecastURL = (.error "invalid forecast URL domain", sent))
    ∧ (∀ (sent sent1 : List HttpRequest) (lat lon : Float64) (g : gridResponse) (u : URL),
        IsValidCoordinates lat lon = true →
        fetchGridData env sent lat lon = (.ok g, sent1) →
        env.urlParse g.Properties.ForecastURL = .ok u → u.Host ≠ "api.weather.gov" →
        GetWeather env sent lat lon = (.err "invalid forecast URL domain", sent1)
        ∧ ∃ gridURL, buildGridURL env lat lon = .ok gridURL
            ∧ sent1 = sent ++ [gridCall gridURL])
    ∧ (∀ (ug : String → Except String gridResponse) (un : String → Except String NWSResponse)
        (rt : List HttpRequest → HttpRequest → Except String HttpResponse)
        (sent : List HttpRequest),
        fetchForecast (GoStd.env ug un rt) sent ""
          = (.error "invalid forecast URL domain", sent)
        ∧ fetchForecast (GoStd.env ug un rt) sent
            "https://forecast.example.org/gridpoints/OKX/33,37/forecast"
          = (.error "invalid forecast URL domain", sent)) := by
  refine ⟨fun sent forecastURL u hu hh => fetchForecast_host_mismatch env sent forecastURL u hu hh,
    ?_, ?_⟩
  · intro sent sent1 lat lon g u hv hg hu hh
    exact ⟨GetWeather_forecast_error env sent sent1 sent1 lat lon g _ hv hg
        (fetchForecast_host_mismatch env sent1 _ u hu hh),
      fetchGridData_ok_inv env sent sent1 lat lon g hg⟩
  · intro ug un rt sent
    constructor
    · exact fetchForecast_host_mismatch _ sent "" {}
        (env_urlParse ug un rt _ _ parseURL_empty) (by decide)
    · have hp : GoStd.parseURL "https://forecast.example.org/gridpoints/OKX/33,37/forecast"
          = some (.ok { Scheme := "https", Host := "forecast.example.org",
                        Path := "/gridpoints/OKX/33,37/forecast" }) := by decide
      exact fetchForecast_host_mismatch _ sent _ _ (env_urlParse ug un rt _ _ hp) (by decide)

/-- Witness for C4: a grid response naming a forecast URL on another host. -/
theorem fetchForecast_foreign_host_witness :
    fetchForecast (cannedEnv 200 "https://forecast.example.org/f" []) []
        "https://forecast.example.org/f"
      = (.error "invalid forecast URL domain", [])
    ∧ GetWeather (cannedEnv 200 "https://forecast.example.org/f" []) [] lat407128 lonNeg74006
      = (.err "invalid forecast URL domain",
          [gridCall "https://api.weather.gov/points/40.7128,-74.0060"]) :=
  ⟨(fetchForecast_foreign_host (cannedEnv 200 "https://forecast.example.org/f" [])).1 []
      "https://forecast.example.org/f"
      { Scheme := "https", Host := "forecast.example.org", Path := "/f" }
      (by decide) (by decide),
   ((fetchForecast_foreign_host (cannedEnv 200 "https://forecast.example.org/f" [])).2.1 []
      [gridCall "https://api.weather.gov/points/40.7128,-74.0060"] lat407128 lonNeg74006
      { Properties := { ForecastURL := "https://forecast.example.org/f" } }
      { Scheme := "https", Host := "forecast.example.org", Path := "/f" }
      (by decide) (by decide) (by decide) (by decide)).1⟩

/-- C10: once the forecast URL parses, fetchForecast issues the GET exactly when
the parsed `Host` is the string `api.weather.gov`, and otherwise returns "invalid
forecast URL domain" without a call; two URLs with the same parsed host are
treated alike whatever their scheme, path and query.  With the reference
`url.Parse`: `http://api.weather.gov/x` is dereferenced, while an explicit
port or another letter case is rejected. -/
theorem fetchForecast_guard_is_host_equality (env : Env) :
    (∀ (sent : List HttpRequest) (forecastURL : String) (u : URL),
        env.urlParse forecastURL = .ok u →
        ((fetchForecast env sent forecastURL).2 = sent ++ [getCall forecastURL]
            ↔ u.Host = "api.weather.gov")
        ∧ ((fetchForecast env sent forecastURL).2 = sent ↔ u.Host ≠ "api.weather.gov")
        ∧ (u.Host ≠ "api.weather.gov" →
            (fetchForecast env sent forecastURL).1 = .error "invalid forecast URL domain"))
    ∧ (∀ (sent : List HttpRequest) (url1 url2 : String) (u1 u2 : URL),
        env.urlParse url1 = .ok u1 → env.urlParse url2 = .ok u2 → u1.Host = u2.Host →
        ((fetchForecast env sent url1).2 = sent ++ [getCall url1]
          ↔ (fetchForecast env sent url2).2 = sent ++ [getCall url2]))
    ∧ (∀ (ug : String → Except String gridResponse) (un : String → Except String NWSResponse)
        (rt : List HttpRequest → HttpRequest → Except String HttpResponse)
        (sent : List HttpRequest),
        (fetchForecast (GoStd.env ug un rt) sent "http://api.weather.gov/x").2
          = sent ++ [getCall "http://api.weather.gov/x"]
        ∧ fetchForecast (GoStd.env ug un rt) sent "https://api.weather.gov:443/x"
          = (.error "invalid forecast URL domain", sent)
        ∧ fetchForecast (GoStd.env ug un rt) sent "api.weather.gov:443"
          = (.error "invalid forecast URL domain", sent)
        ∧ fetchForecast (GoStd.env ug un rt) sent "https://API.WEATHER.GOV/x"
          = (.error "invalid forecast URL domain", sent)) := by
  have part1 : ∀ (sent : List HttpRequest) (forecastURL : String) (u : URL),
      env.urlParse forecastURL = .ok u →
      ((fetchForecast env sent forecastURL).2 = sent ++ [getCall forecastURL]
          ↔ u.Host = "api.weather.gov")
      ∧ ((fetchForecast env sent forecastURL).2 = sent ↔ u.Host ≠ "api.weather.gov")
      ∧ (u.Host ≠ "api.weather.gov" →
          (fetchForecast env sent forecastURL).1 = .error "invalid forecast URL domain") := by
    intro sent forecastURL u hu
    by_cases hh : u.Host = "api.weather.gov"
    · have hs := fetchForecast_sent_of_host env sent forecastURL u hu hh
      refine ⟨⟨fun _ => hh, fun _ => hs⟩, ⟨fun h => ?_, fun h => absurd hh h⟩,
        fun h => absurd hh h⟩
      rw [hs] at h
      have := congrArg List.length h
      simp at this
    · have hm := fetchForecast_host_mismatch env sent forecastURL u hu hh
      refine ⟨⟨fun h => ?_, fun h => absurd h hh⟩, ⟨fun _ => hh, fun _ => by rw [hm]⟩,
        fun _ => by rw [hm]⟩
      rw [hm] at h
      have := congrArg List.length h
      simp at this
  refine ⟨part1, ?_, ?_⟩
  · intro sent url1 url2 u1 u2 h1 h2 hh
    rw [(part1 sent url1 u1 h1).1, (part1 sent url2 u2 h2).1, hh]
  · intro ug un rt sent
    have p1 : GoStd.parseURL "http://api.weather.gov/x"
        = some (.ok { Scheme := "http", Host := "api.weather.gov", Path := "/x" }) := by decide
    have p2 : GoStd.parseURL "https://api.weather.gov:443/x"
        = some (.ok { Scheme := "https", Host := "api.weather.gov:443", Path := "/x" }) := by
      decide
    have p3 : GoStd.parseURL "api.weather.gov:443"
        = some (.ok { Scheme := "api.weather.gov", Opaque := "443" }) := by decide
    have p4 : GoStd.parseURL "https://API.WEATHER.GOV/x"
        = some (.ok { Scheme := "https", Host := "API.WEATHER.GOV", Path := "/x" }) := by decide
    refine ⟨?_, ?_, ?_, ?_⟩
    · exact fetchForecast_sent_of_host _ sent _ _ (env_urlParse ug un rt _ _ p1) rfl
    · exact fetchForecast_host_mismatch _ sent _ _ (env_urlParse ug un rt _ _ p2) (by decide)
    · exact fetchForecast_host_mismatch _ sent _ _ (env_urlParse ug un rt _ _ p3) (by decide)
    · exact fetchForecast_host_mismatch _ sent _ _ (env_urlParse ug un rt _ _ p4) (by decide)

/-- Witness for C10: a plain-http URL on the upstream host is fetched, the same
host with a port is not. -/
theorem fetchForecast_guard_is_host_equality_witness :
    (fetchForecast (cannedEnv 200 "" []) [] "http://api.weather.gov/x").2
      = [getCall "http://api.weather.gov/x"]
    ∧ (fetchForecast (cannedEnv 200 "" []) [] "https://api.weather.gov:443/x").2 = []
    ∧ (fetchForecast (cannedEnv 200 "" []) [] "https://api.weather.gov:443/x").1
      = .error "invalid forecast URL domain" :=
  ⟨((fetchForecast_guard_is_host_equality (cannedEnv 200 "" [])).1 []
      "http://api.weather.gov/x" { Scheme := "http", Host := "api.weather.gov", Path := "/x" }
      (by decide)).1.2 (by decide),
   ((fetchForecast_guard_is_host_equality (cannedEnv 200 "" [])).1 []
      "https://api.weather.gov:443/x"
      { Scheme := "https", Host := "api.weather.gov:443", Path := "/x" }
      (by decide)).2.1.2 (by decide),
   ((fetchForecast_guard_is_host_equality (cannedEnv 200 "" [])).1 []
      "https://api.weather.gov:443/x"
      { Scheme := "https", Host := "api.weather.gov:443", Path := "/x" }
      (by decide)).2.2 (by decide)⟩

/-- C6: a forecast response that is fetched and parsed but has no periods makes
fetchForecast return the error "no forecast periods available" and no response;
so a response returned by fetchForecast has at least one period, and GetWeather
never panics on `Periods[0]`. -/
theorem fetchForecast_periods_nonempty (env : Env) :
    (∀ (sent : List HttpRequest) (forecastURL : String) (u : URL) (resp : HttpResponse)
        (body : String) (nws : NWSResponse),
        env.urlParse forecastURL = .ok u → u.Host = "api.weather.gov" →
        env.roundTrip sent (getCall forecastURL) = .ok resp → resp.StatusCode = 200 →
        resp.Body = .ok body → env.unmarshalNWS body = .ok nws →
        nws.Properties.Periods = [] →
        fetchForecast env sent forecastURL
          = (.error "no forecast periods available", sent ++ [getCall forecastURL]))
    ∧ (∀ (sent sent1 : List HttpRequest) (forecastURL : String) (nws : NWSResponse),
        fetchForecast env sent forecastURL = (.ok nws, sent1) →
        nws.Properties.Periods ≠ [] ∧ 0 < nws.Properties.Periods.length)
    ∧ (∀ (sent sent1 : List HttpRequest) (lat lon : Float64) (msg : String),
        GetWeather env sent lat lon ≠ (.panic msg, sent1)) := by
  refine ⟨?_, ?_, fun sent sent1 lat lon msg => GetWeather_no_panic env sent sent1 lat lon msg⟩
  · intro sent forecastURL u resp body nws hu hh hr hc hb hd hp
    have hr2 : env.roundTrip sent { Method := "GET", URL := forecastURL } = .ok resp := hr
    simp [fetchForecast, hu, hh, hr2, hc, hb, hd, hp, getCall]
  · intro sent sent1 forecastURL nws h
    obtain ⟨_, _, _, _, _, _, _, _, _, hne, _⟩ := fetchForecast_ok_inv env _ _ _ _ h
    exact ⟨hne, List.length_pos.mpr hne⟩

/-- Witness for C6: an upstream whose forecast has no periods, and one whose
forecast has a period. -/
theorem fetchForecast_periods_nonempty_witness :
    fetchForecast (cannedEnv 200 "" []) [] "https://api.weather.gov/gridpoints/OKX/33,37/forecast"
      = (.error "no forecast periods available",
          [getCall "https://api.weather.gov/gridpoints/OKX/33,37/forecast"])
    ∧ fetchForecast (cannedEnv 200 "" [{ Temperature := .fin 85, ShortForecast := "Sunny" }]) []
        "https://api.weather.gov/gridpoints/OKX/33,37/forecast"
      = (.ok { Properties :=
                { Periods := [{ Temperature := .fin 85, ShortForecast := "Sunny" }] } },
          [getCall "https://api.weather.gov/gridpoints/OKX/33,37/forecast"])
    ∧ ([{ Temperature := .fin 85, ShortForecast := "Sunny" }] : List Period) ≠ [] :=
  ⟨(fetchForecast_periods_nonempty (cannedEnv 200 "" [])).1 []
      "https://api.weather.gov/gridpoints/OKX/33,37/forecast"
      { Scheme := "https", Host := "api.weather.gov", Path := "/gridpoints/OKX/33,37/forecast" }
      { StatusCode := 200, Body := .ok "" } "" { Properties := { Periods := [] } }
      (by decide) (by decide) (by decide) (by decide) (by decide) (by decide) (by decide),
   by decide,
   ((fetchForecast_periods_nonempty
      (cannedEnv 200 "" [{ Temperature := .fin 85, ShortForecast := "Sunny" }])).2.1 []
      [getCall "https://api.weather.gov/gridpoints/OKX/33,37/forecast"]
      "https://api.weather.gov/gridpoints/OKX/33,37/forecast"
      { Properties := { Periods := [{ Temperature := .fin 85, ShortForecast := "Sunny" }] } }
      (by decide)).1⟩

/-- C7: whichever stage of GetWeather fails, GetWeather returns no result and
that stage's error text unchanged, with only the outbound calls issued up to
that stage (none when the range check fails, the grid stage's when the grid
stage fails); weatherHandler then writes status 500 and a body whose error is
that text and whose forecast, temperature and category are `""`, `0`, `""`. -/
theorem GetWeather_stage_failure (env : Env) :
    (∀ (sent : List HttpRequest) (lat lon : Float64), IsValidCoordinates lat lon = false →
        GetWeather env sent lat lon = (.err invalidCoordinatesMsg, sent))
    ∧ (∀ (sent sent1 : List HttpRequest) (lat lon : Float64) (e : String),
        IsValidCoordinates lat lon = true →
        fetchGridData env sent lat lon = (.error e, sent1) →
        GetWeather env sent lat lon = (.err e, sent1))
    ∧ (∀ (sent sent1 sent2 : List HttpRequest) (lat lon : Float64) (g : gridResponse)
        (e : String), IsValidCoordinates lat lon = true →
        fetchGridData env sent lat lon = (.ok g, sent1) →
        fetchForecast env sent1 g.Properties.ForecastURL = (.error e, sent2) →
        GetWeather env sent lat lon = (.err e, sent2))
    ∧ (∀ (w : ResponseWriter) (r : Request) (sent sent1 : List HttpRequest) (lat lon : Float64)
        (e : String), w.Status = none →
        r.Ctx.Value (.string "lat") = some (.float64 lat) →
        r.Ctx.Value (.string "lon") = some (.float64 lon) →
        GetWeather env sent lat lon = (.err e, sent1) →
        weatherHandler env w r sent = .returned (errorReply w 500 e) sent1
        ∧ (errorReply w 500 e).Code = 500) := by
  refine ⟨fun sent lat lon h => GetWeather_invalid env sent lat lon h,
    fun sent sent1 lat lon e hv hg => GetWeather_grid_error env sent sent1 lat lon e hv hg,
    fun sent sent1 sent2 lat lon g e hv hg hf =>
      GetWeather_forecast_error env sent sent1 sent2 lat lon g e hv hg hf, ?_⟩
  intro w r sent sent1 lat lon e hw hlat hlon hg
  refine ⟨?_, rfl⟩
  rw [weatherHandler_of_ctx env w r sent lat lon hlat hlon, hg]
  simp [ResponseWriter.WriteHeader, ResponseWriter.Encode, errorReply, hw, Float64.isFinite]

/-- Witness for C7: a failing range check, an upstream answering 503 to the
grid call, a forecast URL on a foreign host, and the 500 reply of the handler. -/
theorem GetWeather_stage_failure_witness :
    GetWeather (cannedEnv 503 "" []) [] (.fin 91) (.fin 0) = (.err invalidCoordinatesMsg, [])
    ∧ GetWeather (cannedEnv 503 "" []) [] lat407128 lonNeg74006
      = (.err "unexpected status code: 503",
          [gridCall "https://api.weather.gov/points/40.7128,-74.0060"])
    ∧ GetWeather (cannedEnv 200 "https://forecast.example.org/f" []) [] lat407128 lonNeg74006
      = (.err "invalid forecast URL domain",
          [gridCall "https://api.weather.gov/points/40.7128,-74.0060"])
    ∧ weatherHandler (cannedEnv 503 "" []) freshWriter
        { Query := queryOf none none,
          Ctx := [(.string "lon", .float64 lonNeg74006), (.string "lat", .float64 lat407128)] } []
      = .returned { Header := [], Status := some 500,
                    Body := [{ Forecast := "", Temperature := .fin 0, Category := "",
                               ErrorMessage := "unexpected status code: 503" }] }
          [gridCall "https://api.weather.gov/points/40.7128,-74.0060"] :=
  ⟨(GetWeather_stage_failure (cannedEnv 503 "" [])).1 [] (.fin 91) (.fin 0) (by decide),
   (GetWeather_stage_failure (cannedEnv 503 "" [])).2.1 []
      [gridCall "https://api.weather.gov/points/40.7128,-74.0060"] lat407128 lonNeg74006
      "unexpected status code: 503" (by decide) (by decide),
   (GetWeather_stage_failure (cannedEnv 200 "https://forecast.example.org/f" [])).2.2.1 []
      [gridCall "https://api.weather.gov/points/40.7128,-74.0060"]
      [gridCall "https://api.weather.gov/points/40.7128,-74.0060"] lat407128 lonNeg74006
      { Properties := { ForecastURL := "https://forecast.example.org/f" } }
      "invalid forecast URL domain" (by decide) (by decide) (by decide),
   ((GetWeather_stage_failure (cannedEnv 503 "" [])).2.2.2 freshWriter
      { Query := queryOf none none,
        Ctx := [(.string "lon", .float64 lonNeg74006), (.string "lat", .float64 lat407128)] }
      [] [gridCall "https://api.weather.gov/points/40.7128,-74.0060"] lat407128 lonNeg74006
      "unexpected status code: 503" rfl (by decide) (by decide) (by decide)).1⟩

theorem weatherHandler_ok_of (env : Env) (w : ResponseWriter) (r : Request)
    (sent sent1 : List HttpRequest) (lat lon : Float64) (data : WeatherResponse)
    (hw : w.Status = none)
    (hlat : r.Ctx.Value (.string "lat") = some (.float64 lat))
    (hlon : r.Ctx.Value (.string "lon") = some (.float64 lon))
    (hfin : data.Temperature.isFinite = true)
    (hG : GetWeather env sent lat lon = (.ok data, sent1)) :
    weatherHandler env w r sent
      = .returned { Header := w.Header, Status := some 200, Body := w.Body ++ [data] } sent1 := by
  rw [weatherHandler_of_ctx env w r sent lat lon hlat hlon, hG]
  simp [ResponseWriter.Encode, hfin, hw]

/-- C5: for valid coordinates, a grid call answered 200 with a body that decodes
to a grid response naming a forecast URL on the upstream host, and a forecast
call answered 200 with a body that decodes to the periods `p :: rest`, GetWeather
returns no error and the result with `p.ShortForecast`, `p.Temperature`,
`categorizeTemperature p.Temperature` and an empty error text, whatever `rest`
is, after exactly these two calls; weatherHandler then writes that result with
status 200 (the temperature of a decoded JSON number is finite).  This holds
for every Env in which `url.Parse` accepts baseURL and the grid URL rendered
from it, and for the reference library with no assumption beyond the upstream
answers.  A first period of temperature 85 is classified "hot". -/
theorem GetWeather_first_period :
    (∀ (env : Env) (sent : List HttpRequest) (lat lon : Float64) (base gu : URL)
        (gridURL : String) (gresp : HttpResponse) (gbody : String) (g : gridResponse)
        (u : URL) (resp : HttpResponse) (body : String) (nws : NWSResponse) (p : Period)
        (rest : List Period),
        IsValidCoordinates lat lon = true →
        env.urlParse baseURL = .ok base →
        gridURL = env.urlString
          { base with Path := "/points/" ++ env.Sprintf4f lat ++ "," ++ env.Sprintf4f lon } →
        env.urlParse gridURL = .ok gu →
        env.roundTrip sent (gridCall gridURL) = .ok gresp →
        gresp.StatusCode = 200 → gresp.Body = .ok gbody → env.unmarshalGrid gbody = .ok g →
        env.urlParse g.Properties.ForecastURL = .ok u → u.Host = "api.weather.gov" →
        env.roundTrip (sent ++ [gridCall gridURL]) (getCall g.Properties.ForecastURL)
          = .ok resp →
        resp.StatusCode = 200 → resp.Body = .ok body → env.unmarshalNWS body = .ok nws →
        nws.Properties.Periods = p :: rest →
        GetWeather env sent lat lon
          = (.ok { Forecast := p.ShortForecast, Temperature := p.Temperature,
                   Category := categorizeTemperature p.Temperature, ErrorMessage := "" },
              sent ++ [gridCall gridURL, getCall g.Properties.ForecastURL])
        ∧ (∀ (w : ResponseWriter) (r : Request), w.Status = none →
            r.Ctx.Value (.string "lat") = some (.float64 lat) →
            r.Ctx.Value (.string "lon") = some (.float64 lon) →
            p.Temperature.isFinite = true →
            weatherHandler env w r sent
              = .returned
                  { Header := w.Header, Status := some 200,
                    Body := w.Body ++ [{ Forecast := p.ShortForecast,
                                         Temperature := p.Temperature,
                                         Category := categorizeTemperature p.Temperature,
                                         ErrorMessage := "" }] }
                  (sent ++ [gridCall gridURL, getCall g.Properties.ForecastURL])))
    ∧ (∀ (ug : String → Except String gridResponse) (un : String → Except String NWSResponse)
        (rt : List HttpRequest → HttpRequest → Except String HttpResponse)
        (sent : List HttpRequest) (lat lon : Float64) (gresp : HttpResponse) (gbody : String)
        (g : gridResponse) (u : URL) (resp : HttpResponse) (body : String) (nws : NWSResponse)
        (p : Period) (rest : List Period),
        IsValidCoordinates lat lon = true →
        rt sent (gridCall ("https://api.weather.gov/points/" ++ GoStd.sprintf4f lat ++ ","
          ++ GoStd.sprintf4f lon)) = .ok gresp →
        gresp.StatusCode = 200 → gresp.Body = .ok gbody → ug gbody = .ok g →
        GoStd.parseURL g.Properties.ForecastURL = some (.ok u) → u.Host = "api.weather.gov" →
        rt (sent ++ [gridCall ("https://api.weather.gov/points/" ++ GoStd.sprintf4f lat ++ ","
          ++ GoStd.sprintf4f lon)]) (getCall g.Properties.ForecastURL) = .ok resp →
        resp.StatusCode = 200 → resp.Body = .ok body → un body = .ok nws →
        nws.Properties.Periods = p :: rest →
        GetWeather (GoStd.env ug un rt) sent lat lon
          = (.ok { Forecast := p.ShortForecast, Temperature := p.Temperature,
                   Category := categorizeTemperature p.Temperature, ErrorMessage := "" },
              sent ++ [gridCall ("https://api.weather.gov/points/" ++ GoStd.sprintf4f lat
                          ++ "," ++ GoStd.sprintf4f lon),
                       getCall g.Properties.ForecastURL])
        ∧ (∀ (w : ResponseWriter) (r : Request), w.Status = none →
            r.Ctx.Value (.string "lat") = some (.float64 lat) →
            r.Ctx.Value (.string "lon") = some (.float64 lon) →
            p.Temperature.isFinite = true →
            weatherHandler (GoStd.env ug un rt) w r sent
              = .returned
                  { Header := w.Header, Status := some 200,
                    Body := w.Body ++ [{ Forecast := p.ShortForecast,
                                         Temperature := p.Temperature,
                                         Category := categorizeTemperature p.Temperature,
                                         ErrorMessage := "" }] }
                  (sent ++ [gridCall ("https://api.weather.gov/points/"
                              ++ GoStd.sprintf4f lat ++ "," ++ GoStd.sprintf4f lon),
                            getCall g.Properties.ForecastURL])))
    ∧ categorizeTemperature (.fin 85) = "hot" := by
  refine ⟨?_, ?_, ?_⟩
  · intro env sent lat lon base gu gridURL gresp gbody g u resp body nws p rest hvalid hbase
      hgrid hreq hgresp hgcode hgbody hgdec hu hhost hresp hcode hbody hdec hp
    have hurl : buildGridURL env lat lon = .ok gridURL := by
      rw [hgrid]; exact buildGridURL_ok_of env lat lon base hbase
    have hG := GetWeather_ok_of env sent lat lon gridURL gu gresp gbody g u resp body nws p rest
      hvalid hurl hreq hgresp hgcode hgbody hgdec hu hhost hresp hcode hbody hdec hp
    exact ⟨hG, fun w r hw hlat hlon hfin =>
      weatherHandler_ok_of env w r sent _ lat lon _ hw hlat hlon hfin hG⟩
  · intro ug un rt sent lat lon gresp gbody g u resp body nws p rest hvalid hgresp hgcode
      hgbody hgdec hu hhost hresp hcode hbody hdec hp
    have hG := GetWeather_ok_of (GoStd.env ug un rt) sent lat lon _ _ gresp gbody g u resp body
      nws p rest hvalid (GoStd.buildGridURL_env ug un rt lat lon)
      (env_urlParse ug un rt _ _ (GoStd.parseURL_gridURL lat lon)) hgresp hgcode hgbody hgdec
      (env_urlParse ug un rt _ _ hu) hhost hresp hcode hbody hdec hp
    exact ⟨hG, fun w r hw hlat hlon hfin =>
      weatherHandler_ok_of (GoStd.env ug un rt) w r sent _ lat lon _ hw hlat hlon hfin hG⟩
  · simp [categorizeTemperature, HotThreshold, Float64.ge, Float64.le, Hot]
    norm_num

/-- Witness for C5: valid coordinates and the sample upstream, whose forecast is
the one period (85, "Sunny"); the registered handler answers 200 with forecast
"Sunny", temperature 85, category "hot". -/
theorem GetWeather_first_period_witness :
    GetWeather sampleEnv [] lat407128 lonNeg74006
      = (.ok { Forecast := "Sunny", Temperature := .fin 85, Category := "hot",
               ErrorMessage := "" },
          [gridCall "https://api.weather.gov/points/40.7128,-74.0060",
           getCall "https://api.weather.gov/gridpoints/OKX/33,37/forecast"])
    ∧ endpoint sampleEnv freshWriter (requestOf (some "40.7128") (some "-74.0060")) []
      = .returned
          { Header := [("Content-Type", "application/json")], Status := some 200,
            Body := [{ Forecast := "Sunny", Temperature := .fin 85, Category := "hot",
                       ErrorMessage := "" }] }
          [gridCall "https://api.weather.gov/points/40.7128,-74.0060",
           getCall "https://api.weather.gov/gridpoints/OKX/33,37/forecast"] :=
  ⟨(GetWeather_first_period.2.1 sampleUnmarshalGrid sampleUnmarshalNWS sampleRoundTrip []
      lat407128 lonNeg74006 { StatusCode := 200, Body := .ok "grid" } "grid"
      { Properties := { ForecastURL := "https://api.weather.gov/gridpoints/OKX/33,37/forecast" } }
      { Scheme := "https", Host := "api.weather.gov", Path := "/gridpoints/OKX/33,37/forecast" }
      { StatusCode := 200, Body := .ok "forecast" } "forecast"
      { Properties := { Periods := [{ Temperature := .fin 85, ShortForecast := "Sunny" }] } }
      { Temperature := .fin 85, ShortForecast := "Sunny" } []
      (by decide) (by decide) (by decide) (by decide) (by decide) (by decide) (by decide)
      (by decide) (by decide) (by decide) (by decide) (by decide)).1,
   (GetWeather_first_period.2.1 sampleUnmarshalGrid sampleUnmarshalNWS sampleRoundTrip []
      lat407128 lonNeg74006 { StatusCode := 200, Body := .ok "grid" } "grid"
      { Properties := { ForecastURL := "https://api.weather.gov/gridpoints/OKX/33,37/forecast" } }
      { Scheme := "https", Host := "api.weather.gov", Path := "/gridpoints/OKX/33,37/forecast" }
      { StatusCode := 200, Body := .ok "forecast" } "forecast"
      { Properties := { Periods := [{ Temperature := .fin 85, ShortForecast := "Sunny" }] } }
      { Temperature := .fin 85, ShortForecast := "Sunny" } []
      (by decide) (by decide) (by decide) (by decide) (by decide) (by decide) (by decide)
      (by decide) (by decide) (by decide) (by decide) (by decide)).2
      { Header := [("Content-Type", "application/json")], Status := none, Body := [] }
      { Query := queryOf (some "40.7128") (some "-74.0060"),
        Ctx := [(.string "lon", .float64 lonNeg74006), (.string "lat", .float64 lat407128)] }
      rfl (by decide) (by decide) (by decide)⟩

theorem weatherHandler_no_panic (env : Env) (w : ResponseWriter) (r : Request)
    (sent : List HttpRequest) (lat lon : Float64)
    (hlat : r.Ctx.Value (.string "lat") = some (.float64 lat))
    (hlon : r.Ctx.Value (.string "lon") = some (.float64 lon)) (msg : String) :
    weatherHandler env w r sent ≠ .panicked msg := by
  rw [weatherHandler_of_ctx env w r sent lat lon hlat hlon]
  intro h
  split at h
  · rename_i m s hg
    exact GetWeather_no_panic env sent s lat lon m hg
  · simp at h
  · simp at h

/-- C9: in the registered composition coordinateValidator(weatherHandler), a
request is either answered by the validator alone (its outcome does not depend on
the next handler) or handed on with context values "lat" and "lon" that are
present, are float64 and satisfy IsValidCoordinates.  Hence the composition never
panics, and GetWeather, called on those values, never returns its "invalid
coordinates" error. -/
theorem endpoint_coordinates_valid (env : Env) (w : ResponseWriter) (r : Request)
    (sent : List HttpRequest) :
    (∀ msg, endpoint env w r sent ≠ .panicked msg)
    ∧ ((∃ out, ∀ next : Handler, coordinateValidator env next w r sent = out)
      ∨ ∃ lat lon r1,
          IsValidCoordinates lat lon = true
          ∧ r1 = r.WithContext ((r.Ctx.WithValue (.string "lat") (.float64 lat)).WithValue
                  (.string "lon") (.float64 lon))
          ∧ (∀ next : Handler, coordinateValidator env next w r sent
                = next (w.HeaderSet "Content-Type" "application/json") r1 sent)
          ∧ r1.Ctx.Value (.string "lat") = some (.float64 lat)
          ∧ r1.Ctx.Value (.string "lon") = some (.float64 lon)
          ∧ (∀ sent1, GetWeather env sent lat lon ≠ (.err invalidCoordinatesMsg, sent1))) := by
  by_cases h0 : r.Query.Get "lat" = "" ∨ r.Query.Get "lon" = ""
  · have hrej : ∀ next : Handler, coordinateValidator env next w r sent
        = .returned (((w.HeaderSet "Content-Type" "application/json").WriteHeader 400).Encode
            { ErrorMessage := "latitude and longitude are required" }) sent := by
      intro next; simp only [coordinateValidator]; rw [if_pos h0]
    refine ⟨fun msg => ?_, Or.inl ⟨_, hrej⟩⟩
    unfold endpoint; rw [hrej]; simp
  · cases hlat : env.ParseFloat (r.Query.Get "lat") with
    | error e =>
      have hrej : ∀ next : Handler, coordinateValidator env next w r sent
          = .returned (((w.HeaderSet "Content-Type" "application/json").WriteHeader 400).Encode
              { ErrorMessage := "invalid latitude format" }) sent := by
        intro next; simp only [coordinateValidator]; rw [if_neg h0]; simp [hlat]
      refine ⟨fun msg => ?_, Or.inl ⟨_, hrej⟩⟩
      unfold endpoint; rw [hrej]; simp
    | ok lat =>
      cases hlon : env.ParseFloat (r.Query.Get "lon") with
      | error e =>
        have hrej : ∀ next : Handler, coordinateValidator env next w r sent
            = .returned (((w.HeaderSet "Content-Type" "application/json").WriteHeader 400).Encode
                { ErrorMessage := "invalid longitude format" }) sent := by
          intro next; simp only [coordinateValidator]; rw [if_neg h0]; simp [hlat, hlon]
        refine ⟨fun msg => ?_, Or.inl ⟨_, hrej⟩⟩
        unfold endpoint; rw [hrej]; simp
      | ok lon =>
        cases hv : IsValidCoordinates lat lon with
        | false =>
          have hrej : ∀ next : Handler, coordinateValidator env next w r sent
              = .returned
                  (((w.HeaderSet "Content-Type" "application/json").WriteHeader 400).Encode
                    { ErrorMessage := "coordinates out of valid range" }) sent := by
            intro next; simp only [coordinateValidator]; rw [if_neg h0]; simp [hlat, hlon, hv]
          refine ⟨fun msg => ?_, Or.inl ⟨_, hrej⟩⟩
          unfold endpoint; rw [hrej]; simp
        | true =>
          have hpass : ∀ next : Handler, coordinateValidator env next w r sent
              = next (w.HeaderSet "Content-Type" "application/json")
                  (r.WithContext ((r.Ctx.WithValue (.string "lat") (.float64 lat)).WithValue
                    (.string "lon") (.float64 lon))) sent := by
            intro next; simp only [coordinateValidator]; rw [if_neg h0]; simp [hlat, hlon, hv]
          have hclat : (r.WithContext ((r.Ctx.WithValue (.string "lat") (.float64 lat)).WithValue
              (.string "lon") (.float64 lon))).Ctx.Value (.string "lat")
                = some (.float64 lat) := by
            simp [Request.WithContext, Context.WithValue, Context.Value]
          have hclon : (r.WithContext ((r.Ctx.WithValue (.string "lat") (.float64 lat)).WithValue
              (.string "lon") (.float64 lon))).Ctx.Value (.string "lon")
                = some (.float64 lon) := by
            simp [Request.WithContext, Context.WithValue, Context.Value]
          refine ⟨fun msg => ?_, Or.inr ⟨lat, lon, _, hv, rfl, hpass, hclat, hclon,
            fun sent1 => GetWeather_valid_ne_invalid env sent sent1 lat lon hv⟩⟩
          unfold endpoint; rw [hpass]
          exact weatherHandler_no_panic env _ _ sent lat lon hclat hclon msg

theorem isFinite_of_valid (lat lon : Float64) (h : IsValidCoordinates lat lon = true) :
    lat.isFinite = true ∧ lon.isFinite = true := by
  cases lat <;> cases lon <;>
    simp [IsValidCoordinates, Float64.ge, Float64.le, Float64.isFinite] at h ⊢

/-- C8: for every coordinate pair (a pair that passes IsValidCoordinates, the
guard in front of the only call of buildGridURL), buildGridURL returns no error
and the string `https://api.weather.gov/points/` followed by lat with exactly
four decimal places, a comma, and lon with exactly four decimal places; the pair
(40.7128, -74.006) gives `https://api.weather.gov/points/40.7128,-74.0060`.
The result parses to the host of baseURL, `api.weather.gov`.  The absence of an
error, the shape of the string and its host hold for every pair of float64
values, and the four decimal places for every finite value. -/
theorem buildGridURL_format (ug : String → Except String gridResponse)
    (un : String → Except String NWSResponse)
    (rt : List HttpRequest → HttpRequest → Except String HttpResponse) (lat lon : Float64) :
    buildGridURL (GoStd.env ug un rt) lat lon
      = .ok ("https://api.weather.gov/points/" ++ GoStd.sprintf4f lat ++ ","
              ++ GoStd.sprintf4f lon)
    ∧ (IsValidCoordinates lat lon = true →
        GoStd.isFixed4 (GoStd.sprintf4f lat).data = true
        ∧ GoStd.isFixed4 (GoStd.sprintf4f lon).data = true)
    ∧ (lat.isFinite = true → GoStd.isFixed4 (GoStd.sprintf4f lat).data = true)
    ∧ (lon.isFinite = true → GoStd.isFixed4 (GoStd.sprintf4f lon).data = true)
    ∧ GoStd.parseURL ("https://api.weather.gov/points/" ++ GoStd.sprintf4f lat ++ ","
          ++ GoStd.sprintf4f lon)
        = some (.ok { Scheme := "https", Host := "api.weather.gov",
                      Path := "/points/" ++ GoStd.sprintf4f lat ++ "," ++ GoStd.sprintf4f lon })
    ∧ GoStd.parseURL baseURL = some (.ok { Scheme := "https", Host := "api.weather.gov" })
    ∧ buildGridURL (GoStd.env ug un rt) lat407128 lonNeg74006
        = .ok "https://api.weather.gov/points/40.7128,-74.0060" := by
  have hlat : lat.isFinite = true → GoStd.isFixed4 (GoStd.sprintf4f lat).data = true := by
    intro h
    have := GoStd.isFixed4_sprintf4f lat
    simpa [GoStd.sprintf4f, h] using this
  have hlon : lon.isFinite = true → GoStd.isFixed4 (GoStd.sprintf4f lon).data = true := by
    intro h
    have := GoStd.isFixed4_sprintf4f lon
    simpa [GoStd.sprintf4f, h] using this
  refine ⟨GoStd.buildGridURL_env ug un rt lat lon, ?_, hlat, hlon,
    GoStd.parseURL_gridURL lat lon, GoStd.parseURL_baseURL, ?_⟩
  · intro hv
    exact ⟨hlat (isFinite_of_valid lat lon hv).1, hlon (isFinite_of_valid lat lon hv).2⟩
  · rw [GoStd.buildGridURL_env ug un rt lat407128 lonNeg74006]
    have h1 : GoStd.sprintf4f lat407128 = "40.7128" := by decide
    have h2 : GoStd.sprintf4f lonNeg74006 = "-74.0060" := by decide
    rw [h1, h2]
    rfl

/-- Witness for C8: the valid pair (40.7128, -74.006) and the boundary pair
(-90, 180). -/
theorem buildGridURL_format_witness :
    IsValidCoordinates lat407128 lonNeg74006 = true
    ∧ buildGridURL (cannedEnv 200 "" []) lat407128 lonNeg74006
        = .ok "https://api.weather.gov/points/40.7128,-74.0060"
    ∧ GoStd.isFixed4 (GoStd.sprintf4f lat407128).data = true
    ∧ GoStd.isFixed4 (GoStd.sprintf4f lonNeg74006).data = true
    ∧ buildGridURL (cannedEnv 200 "" []) (.fin (-90)) (.fin 180)
        = .ok "https://api.weather.gov/points/-90.0000,180.0000"
    ∧ GoStd.isFixed4 (GoStd.sprintf4f (.fin (-90))).data = true
    ∧ GoStd.isFixed4 (GoStd.sprintf4f (.fin 180)).data = true :=
  ⟨by decide,
   (buildGridURL_format _ _ _ lat407128 lonNeg74006).1,
   ((buildGridURL_format (fun _ => .ok { Properties := { ForecastURL := "" } })
      (fun _ => .ok { Properties := { Periods := [] } })
      (fun _ _ => .ok { StatusCode := 200, Body := .ok "" })
      lat407128 lonNeg74006).2.1 (by decide)).1,
   ((buildGridURL_format (fun _ => .ok { Properties := { ForecastURL := "" } })
      (fun _ => .ok { Properties := { Periods := [] } })
      (fun _ _ => .ok { StatusCode := 200, Body := .ok "" })
      lat407128 lonNeg74006).2.1 (by decide)).2,
   (buildGridURL_format _ _ _ (.fin (-90)) (.fin 180)).1,
   ((buildGridURL_format (fun _ => .ok { Properties := { ForecastURL := "" } })
      (fun _ => .ok { Properties := { Periods := [] } })
      (fun _ _ => .ok { StatusCode := 200, Body := .ok "" })
      (.fin (-90)) (.fin 180)).2.1 (by decide)).1,
   ((buildGridURL_format (fun _ => .ok { Properties := { ForecastURL := "" } })
      (fun _ => .ok { Properties := { Periods := [] } })
      (fun _ _ => .ok { StatusCode := 200, Body := .ok "" })
      (.fin (-90)) (.fin 180)).2.1 (by decide)).2⟩

end Weather
